import Mathlib

/-!
Verification development for the `taiyo` Solr client library.

The Python sources are shallowly embedded:

* the wire parameter map built by the query parsers (`BaseQueryParser.build`,
  `DenseVectorSearchQueryParser.build`, `TermsQueryParser.build`,
  `BaseQueryParser.serialize_configs`) is modelled as an ordered association
  list with Python-dict update semantics;
* pydantic's "explicitly set" tracking (`exclude_unset`) together with
  `exclude_none` is modelled by a `Setting` type distinguishing an unset
  field, a field explicitly set to `None`, and a field explicitly set to a
  value;
* Python floats never take part in arithmetic in the embedded code (they are
  only rendered into strings by f-strings and `str(list)`), so a float is
  carried as its `repr` string;
* the response decoder (`BaseSolrClient._build_search_response`,
  `SolrFacetResult.from_response` and friends from `taiyo/types.py`) is
  modelled over a JSON value type, with Python runtime errors (`KeyError`,
  `AttributeError`, `TypeError`, pydantic `ValidationError`) made explicit in
  an `Except` monad.
-/

set_option autoImplicit false

namespace Taiyo

/-- A serialized parameter value as it appears in the wire parameter map
produced by `model_dump`.  Strings, ints, bools, lists of strings, and floats
(carried as their `repr` string). -/
inductive PVal where
  | s (v : String)
  | i (v : Int)
  | b (v : Bool)
  | ls (v : List String)
  | fl (v : String)
deriving DecidableEq, Repr

/-- Pydantic per-field state: `unset` (the caller never assigned the field, it
sits at its declared default), `noneSet` (the caller explicitly assigned
`None`), or `val` (the caller explicitly assigned a value).  `model_dump`
with `exclude_unset=True, exclude_none=True` emits exactly the `val` fields. -/
inductive Setting (α : Type) where
  | unset
  | noneSet
  | val (a : α)
deriving DecidableEq, Repr

/-- The value a Python attribute access sees: the default when unset. -/
def Setting.access {α : Type} (s : Setting α) (dflt : Option α) : Option α :=
  match s with
  | .unset => dflt
  | .noneSet => none
  | .val a => some a

/-- Model of `model_dump(exclude_unset=True, exclude_none=True)` contribution of one
optional field. -/
def Setting.dump {α : Type} (s : Setting α) : Option α :=
  match s with
  | .val a => some a
  | _ => none

/-- An ordered wire parameter map (Python `dict[str, Any]` with insertion
order). -/
abbrev Params := List (String × PVal)

/-- Python `d[k] = v`: replace in place if the key exists, else append. -/
def dictSet (d : Params) (k : String) (v : PVal) : Params :=
  if d.any (fun p => p.1 = k) then
    d.map (fun p => if p.1 = k then (k, v) else p)
  else
    d ++ [(k, v)]

/-- Python `d.update(u)`: set every pair of `u` into `d` in order. -/
def dictUpdate (d : Params) (u : Params) : Params :=
  u.foldl (fun acc p => dictSet acc p.1 p.2) d

/-- Python `d.setdefault(k, v)`. -/
def dictSetdefault (d : Params) (k : String) (v : PVal) : Params :=
  if d.any (fun p => p.1 = k) then d else d ++ [(k, v)]

/-- Python `d.get(k)` / `k in d` on the parameter map: first binding wins
(maps built through `dictSet` never hold duplicate keys). -/
def dictGet (d : Params) (k : String) : Option PVal :=
  (d.find? (fun p => p.1 = k)).map (fun p => p.2)

/-- The value of the last binding of `k` in a raw entry list. -/
def lastVal (u : Params) (k : String) : Option PVal :=
  (u.reverse.find? (fun p => p.1 = k)).map (fun p => p.2)

theorem dictGet_dictSet_self (d : Params) (k : String) (v : PVal) :
    dictGet (dictSet d k v) k = some v := by
  unfold dictGet dictSet
  by_cases h : d.any (fun p => p.1 = k)
  · simp only [h, if_pos]
    induction d with
    | nil => simp at h
    | cons p t ih =>
      by_cases hp : p.1 = k
      · simp [List.find?, hp]
      · simp only [List.any_cons, hp, decide_eq_true_eq, Bool.false_or] at h
        simp only [List.map_cons, if_neg hp]
        rw [List.find?_cons_of_neg _ (by simpa using hp)]
        exact ih h
  · simp only [h, if_neg, Bool.not_eq_true]
    induction d with
    | nil => simp [List.find?]
    | cons p t ih =>
      simp only [List.any_cons, Bool.or_eq_true, decide_eq_true_eq] at h
      push_neg at h
      rw [List.cons_append, List.find?_cons_of_neg _ (by simpa using h.1)]
      exact ih (by simpa using h.2)

theorem find?_map_rewrite (t : Params) (k k' : String) (v : PVal) (h : k' ≠ k) :
    List.find? (fun p => p.1 = k')
      (t.map (fun p => if p.1 = k then (k, v) else p)) =
    List.find? (fun p => p.1 = k') t := by
  induction t with
  | nil => simp
  | cons p t ih =>
    by_cases hp : p.1 = k
    · have h1 : ¬((k : String) = k') := fun hh => h hh.symm
      have h2 : ¬(p.1 = k') := by rw [hp]; exact h1
      simp only [List.map_cons, if_pos hp]
      rw [List.find?_cons_of_neg _ (by simpa using h1),
          List.find?_cons_of_neg _ (by simpa using h2)]
      exact ih
    · simp only [List.map_cons, if_neg hp]
      by_cases hpk' : p.1 = k'
      · rw [List.find?_cons_of_pos _ (by simpa using hpk'),
            List.find?_cons_of_pos _ (by simpa using hpk')]
      · rw [List.find?_cons_of_neg _ (by simpa using hpk'),
            List.find?_cons_of_neg _ (by simpa using hpk')]
        exact ih

theorem dictGet_dictSet_ne (d : Params) (k k' : String) (v : PVal) (h : k' ≠ k) :
    dictGet (dictSet d k v) k' = dictGet d k' := by
  unfold dictGet dictSet
  by_cases hc : d.any (fun p => p.1 = k)
  · simp only [hc, if_pos]
    rw [find?_map_rewrite d k k' v h]
  · simp only [hc, if_neg, Bool.not_eq_true]
    rw [List.find?_append]
    cases hf : List.find? (fun p => decide (p.1 = k')) d with
    | some p => simp [hf]
    | none =>
      simp only [hf, Option.none_or]
      rw [List.find?_cons_of_neg _ (by simpa using fun hh => h hh.symm)]
      simp [List.find?]

theorem dictGet_dictUpdate (d : Params) (u : Params) (k : String) :
    dictGet (dictUpdate d u) k = (lastVal u k).or (dictGet d k) := by
  induction u generalizing d with
  | nil => simp [dictUpdate, lastVal]
  | cons p t ih =>
    rw [show dictUpdate d (p :: t) = dictUpdate (dictSet d p.1 p.2) t from rfl, ih]
    unfold lastVal
    rw [List.reverse_cons, List.find?_append]
    by_cases hk : p.1 = k
    · subst hk
      cases hf : List.find? (fun q => q.1 = p.1) t.reverse with
      | some q => simp [hf]
      | none =>
        simp only [hf, Option.none_or, List.find?]
        simp [dictGet_dictSet_self]
    · cases hf : List.find? (fun q => q.1 = k) t.reverse with
      | some q => simp [hf]
      | none =>
        simp only [hf, Option.none_or]
        rw [List.find?_cons_of_neg _ (by simpa using hk)]
        simp [dictGet_dictSet_ne _ _ _ _ (fun h => hk h.symm), List.find?]

/-- A `ParamsConfig` (SubConfig: facet / group / highlight / more-like-this):
its enable key and its aliased field states.  `fields` lists the config's
declared fields as wire-alias / `Setting` pairs, so that
`model_dump(exclude_none=True, exclude_unset=True, by_alias=True)` is the
`filterMap` below (`dumpConfig`). -/
structure ParamsConfig where
  enable_key : String
  fields : List (String × Setting PVal)

/-- Model of `config.model_dump(exclude_none=True, exclude_unset=True, by_alias=True)`
as called in `BaseQueryParser.serialize_configs`. -/
def ParamsConfig.dumpConfig (c : ParamsConfig) : Params :=
  c.fields.filterMap (fun p => (p.2.dump).map (fun v => (p.1, v)))

/-- Model of `BaseQueryParser.serialize_configs`: build one `updates` dict by, for each
config in order, setting `updates[config.enable_key] = True` and then merging
the config's dump; finally `params.update(updates)`. -/
def serialize_configs (configs : List ParamsConfig) (params : Params) : Params :=
  dictUpdate params
    (configs.foldl
      (fun upd c => dictUpdate (dictSet upd c.enable_key (.b true)) c.dumpConfig)
      [])

/-- Model of `CommonParamsMixin` (taiyo/params/mixins/common.py): the fields shared by
every query parser, each tracked with its `Setting`.  `filters` is kept typed
(`Optional[List[str]]`) because `TermsQueryParser.filter_query` reads it. -/
structure CommonParamsMixin where
  sort : Setting PVal := .unset
  start : Setting PVal := .unset
  rows : Setting PVal := .unset
  can_cancel : Setting PVal := .unset
  query_uuid : Setting PVal := .unset
  filters : Setting (List String) := .unset
  field_list : Setting PVal := .unset
  debug : Setting PVal := .unset
  explain_other : Setting PVal := .unset
  partial_results : Setting PVal := .unset
  time_allowed : Setting PVal := .unset
  cpu_allowed : Setting PVal := .unset
  max_hits_allowed : Setting PVal := .unset
  mem_allowed : Setting PVal := .unset
  segment_terminate_early : Setting PVal := .unset
  multi_threaded : Setting PVal := .unset
  omit_header : Setting PVal := .unset
  writer_type : Setting PVal := .unset
  log_params_list : Setting PVal := .unset
  echo_params : Setting PVal := .unset
  min_exact_count : Setting PVal := .unset

/-- The common fields in declaration order, as wire alias / dump pairs. -/
def commonSlots (c : CommonParamsMixin) : List (String × Option PVal) :=
  [("sort", c.sort.dump),
   ("start", c.start.dump),
   ("rows", c.rows.dump),
   ("canCancel", c.can_cancel.dump),
   ("queryUUID", c.query_uuid.dump),
   ("fq", (c.filters.dump).map PVal.ls),
   ("fl", c.field_list.dump),
   ("debug", c.debug.dump),
   ("explainOther", c.explain_other.dump),
   ("partialResults", c.partial_results.dump),
   ("timeAllowed", c.time_allowed.dump),
   ("cpuAllowed", c.cpu_allowed.dump),
   ("maxHitsAllowed", c.max_hits_allowed.dump),
   ("memAllowed", c.mem_allowed.dump),
   ("segmentTerminateEarly", c.segment_terminate_early.dump),
   ("multiThreaded", c.multi_threaded.dump),
   ("omitHeader", c.omit_header.dump),
   ("writer_type", c.writer_type.dump),
   ("logParamsList", c.log_params_list.dump),
   ("echoParams", c.echo_params.dump),
   ("minExactCount", c.min_exact_count.dump)]

/-- The common-field part of
`model_dump(by_alias=True, exclude_none=True, exclude_unset=True)`:
exactly the explicitly-set, non-`None` fields, under their aliases, in
declaration order. -/
def dumpCommon (c : CommonParamsMixin) : Params :=
  (commonSlots c).filterMap (fun p => p.2.map (fun v => (p.1, v)))

/-- Model of `DenseVectorSearchParamsMixin` (taiyo/params/mixins/dense_vector_search.py). -/
structure DenseVectorSearchParamsMixin where
  field : String
  pre_filter : Setting (List String) := .unset
  include_tags : Setting (List String) := .unset
  exclude_tags : Setting (List String) := .unset

/-- One `k=v` token per element of an optional list parameter. -/
def listParams (k : String) (v : Option (List String)) : List String :=
  match v with
  | some l => l.map (fun x => k ++ "=" ++ x)
  | none => []

/-- Model of `DenseVectorSearchParamsMixin.vector_search_params`: dump of the mixin's
own fields (`by_alias`, `exclude_none`, no `exclude_unset`; the declared
defaults of the optional fields are all `None`), rendered as space-joined
`k=v` tokens, list fields contributing one token per element. -/
def DenseVectorSearchParamsMixin.vector_search_params
    (m : DenseVectorSearchParamsMixin) : String :=
  String.intercalate " " (
    ("f=" ++ m.field) ::
    (listParams "preFilter" (m.pre_filter.access none) ++
     listParams "includeTags" (m.include_tags.access none) ++
     listParams "excludeTags" (m.exclude_tags.access none)))

/-- Python `f"{x}"` for an `Optional[int]` attribute. -/
def pyOptIntRepr : Option Int → String
  | some n => toString n
  | none => "None"

/-- Python `f"{x}"` for an `Optional[float]` attribute (floats are carried as
their `repr` strings). -/
def pyOptFloatRepr : Option String → String
  | some s => s
  | none => "None"

/-- Python `f"{v}"` for `v: list[float]`: bracketed, comma-space separated. -/
def pyFloatListRepr (v : List String) : String :=
  "[" ++ String.intercalate ", " v ++ "]"

/-- Model of `KNNQueryParser` (taiyo/parsers/dense/knn.py).  `vector` is required and
`Field(exclude=True)`; `top_k` defaults to `10` and is `Field(exclude=True)`. -/
structure KNNQueryParser extends CommonParamsMixin, DenseVectorSearchParamsMixin where
  vector : List String
  top_k : Setting Int := .unset
  configs : List ParamsConfig := []

/-- Model of `KNNQueryParser.query` (a `computed_field` with alias `q`). -/
def KNNQueryParser.query (p : KNNQueryParser) : String :=
  "\x7b!knn topK=" ++ pyOptIntRepr (p.top_k.access (some 10)) ++ " " ++
  p.toDenseVectorSearchParamsMixin.vector_search_params ++ "\x7d" ++
  pyFloatListRepr p.vector

/-- Model of `DenseVectorSearchQueryParser.build`: `model_dump(by_alias=True,
exclude_none=True, exclude_unset=True, exclude=["configs", *mixin keys])` —
declared fields first (the dense mixin's fields and the excluded
`vector`/`top_k` never appear), then the computed `q` — then
`serialize_configs`. -/
def KNNQueryParser.build (p : KNNQueryParser) : Params :=
  serialize_configs p.configs
    (dictUpdate [] (dumpCommon p.toCommonParamsMixin ++ [("q", .s p.query)]))

/-- Model of `VectorSimilarityQueryParser` (taiyo/parsers/dense/vector_similarity.py).
`min_return` / `min_traverse` are optional floats (carried as repr strings),
both `Field(exclude=True)` with default `None`. -/
structure VectorSimilarityQueryParser extends CommonParamsMixin, DenseVectorSearchParamsMixin where
  vector : List String
  min_return : Setting String := .unset
  min_traverse : Setting String := .unset
  configs : List ParamsConfig := []

/-- Model of `VectorSimilarityQueryParser.query` (a `computed_field` with alias `q`). -/
def VectorSimilarityQueryParser.query (p : VectorSimilarityQueryParser) : String :=
  "\x7b!vectorSimilarity minTraverse=" ++ pyOptFloatRepr (p.min_traverse.access none) ++
  " minReturn=" ++ pyOptFloatRepr (p.min_return.access none) ++ " " ++
  p.toDenseVectorSearchParamsMixin.vector_search_params ++ "\x7d" ++
  pyFloatListRepr p.vector

/-- Model of `DenseVectorSearchQueryParser.build` for the vectorSimilarity variant. -/
def VectorSimilarityQueryParser.build (p : VectorSimilarityQueryParser) : Params :=
  serialize_configs p.configs
    (dictUpdate [] (dumpCommon p.toCommonParamsMixin ++ [("q", .s p.query)]))

/-- Model of `TermsQueryParser` (taiyo/parsers/terms/terms.py).  `query` is a plain
`str` with default `"*:*"` (it cannot be set to `None`, hence `Option` with
`none` meaning unset); `field`, `terms`, `separator` are `Field(exclude=True)`;
`method` is an optional literal. -/
structure TermsQueryParser extends CommonParamsMixin where
  query : Option String := none
  field : String
  terms : List String
  separator : Option String := none
  method : Setting String := .unset
  configs : List ParamsConfig := []

/-- Model of `TermsQueryParser.filter_query` (a `computed_field` with alias `fq`):
the `{!terms ...}` clause, appended to the existing filter list when
`self.filters` is truthy (non-`None` and non-empty), otherwise returned as a
single string. -/
def TermsQueryParser.filter_query (t : TermsQueryParser) : PVal :=
  let opts : List String :=
    ("f=" ++ t.field) ::
    (match t.method.access none with
     | some m => if m = "" then [] else ["method=" ++ m]
     | none => [])
  let fq : String :=
    "\x7b!terms " ++ String.intercalate " " opts ++ "\x7d" ++
    String.intercalate (t.separator.getD ",") t.terms
  match t.filters.access none with
  | some l => if l = [] then .s fq else .ls (l ++ [fq])
  | none => .s fq

/-- Model of `TermsQueryParser.build`: `super().build()` (`model_dump` of the declared
fields — common fields, then `query` and `method` when explicitly set — then
the computed `fq`, then `serialize_configs`) followed by
`params.setdefault("q", self.query)`. -/
def TermsQueryParser.build (t : TermsQueryParser) : Params :=
  dictSetdefault
    (serialize_configs t.configs
      (dictUpdate []
        (dumpCommon t.toCommonParamsMixin
          ++ (match t.query with | some q => [("q", PVal.s q)] | none => [])
          ++ (match t.method.dump with | some m => [("method", PVal.s m)] | none => [])
          ++ [("fq", t.filter_query)])))
    "q" (PVal.s (t.query.getD "*:*"))

/-- A JSON value as delivered to the response decoder.  Python `None` is
`null`; numbers in the decoded paths of this repository are integers. -/
inductive Json where
  | null
  | b (v : Bool)
  | i (v : Int)
  | s (v : String)
  | arr (xs : List Json)
  | obj (kvs : List (String × Json))
deriving Repr, Inhabited

/-- Python runtime errors surfaced by the decoder. -/
inductive PyErr where
  | keyError (k : String)
  | typeError (msg : String)
  | attributeError (msg : String)
  | valueError (msg : String)
  | validationError (msg : String)
deriving Repr, DecidableEq

/-- Dict lookup on a JSON object's key/value list (first binding; Python
dicts hold each key once). -/
def Json.lookup (kvs : List (String × Json)) (k : String) : Option Json :=
  (kvs.find? (fun p => p.1 = k)).map (fun p => p.2)

/-- Python `x[k]` with a string key on an arbitrary value. -/
def pySubscript : Json → String → Except PyErr Json
  | .obj kvs, k =>
    match Json.lookup kvs k with
    | some v => .ok v
    | none => .error (.keyError k)
  | .arr _, _ => .error (.typeError "list indices must be integers")
  | .s _, _ => .error (.typeError "string indices must be integers")
  | _, _ => .error (.typeError "object is not subscriptable")

/-- Python `x.get(k, dflt)` on an arbitrary value: `AttributeError` unless
`x` is a dict. -/
def pyGetD : Json → String → Json → Except PyErr Json
  | .obj kvs, k, d => .ok ((Json.lookup kvs k).getD d)
  | _, _, _ => .error (.attributeError "object has no attribute get")

def isPrefixList : List Char → List Char → Bool
  | [], _ => true
  | _ :: _, [] => false
  | a :: as, b :: bs => a = b && isPrefixList as bs

def strContainsAux (n : List Char) : List Char → Bool
  | [] => n.isEmpty
  | c :: cs => isPrefixList n (c :: cs) || strContainsAux n cs

/-- Python substring containment `n in h` for strings. -/
def strContains (h n : String) : Bool :=
  strContainsAux n.data h.data

/-- Python `k in x` for a string `k` and arbitrary `x`: key containment on a
dict, element equality on a list, substring on a string, `TypeError`
otherwise. -/
def pyContains : Json → String → Except PyErr Bool
  | .obj kvs, k => .ok (kvs.any (fun p => p.1 = k))
  | .arr xs, k =>
    .ok (xs.any (fun x => match x with | .s v => v = k | _ => false))
  | .s v, k => .ok (strContains v k)
  | _, _ => .error (.typeError "argument is not iterable")

/-- Python `for x in v`: lists yield elements, strings yield one-character
strings, dicts yield their keys, anything else raises `TypeError`. -/
def pyIter : Json → Except PyErr (List Json)
  | .arr xs => .ok xs
  | .s v => .ok (v.data.map (fun c => Json.s (String.mk [c])))
  | .obj kvs => .ok (kvs.map (fun p => Json.s p.1))
  | _ => .error (.typeError "object is not iterable")

/-- Python `int(x)` (as used on `doclist.get("numFound", 0)`). -/
def pyInt : Json → Except PyErr Int
  | .i n => .ok n
  | .b v => .ok (if v then 1 else 0)
  | .s v =>
    match v.toInt? with
    | some n => .ok n
    | none => .error (.valueError "invalid literal for int")
  | _ => .error (.typeError "int argument must be a string or a number")

/-- Python truthiness of a JSON value (used by `payload.get("docs", []) or []`). -/
def pyTruthy : Json → Bool
  | .null => false
  | .b v => v
  | .i n => n ≠ 0
  | .s v => v ≠ ""
  | .arr xs => !xs.isEmpty
  | .obj kvs => !kvs.isEmpty

/-- Pydantic lax validation of an `int`-typed model field. -/
def validateInt : Json → Except PyErr Int
  | .i n => .ok n
  | .s v =>
    match v.toInt? with
    | some n => .ok n
    | none => .error (.validationError "value is not a valid integer")
  | _ => .error (.validationError "value is not a valid integer")

/-- Pydantic validation of an `Optional[int]` model field. -/
def validateOptInt : Json → Except PyErr (Option Int)
  | .null => .ok none
  | j => (validateInt j).map some

/-- Pydantic validation of an `Optional[str]` model field. -/
def validateOptStr : Json → Except PyErr (Option String)
  | .null => .ok none
  | .s v => .ok (some v)
  | _ => .error (.validationError "value is not a valid string")

/-- Pydantic validation of an `Optional[bool]` model field. -/
def validateOptBool : Json → Except PyErr (Option Bool)
  | .null => .ok none
  | .b v => .ok (some v)
  | _ => .error (.validationError "value is not a valid bool")

/-- Pydantic validation of an `Optional[Dict[str, Any]]` model field. -/
def validateOptDict : Json → Except PyErr (Option (List (String × Json)))
  | .null => .ok none
  | .obj kvs => .ok (some kvs)
  | _ => .error (.validationError "value is not a valid dict")

/-- Truncation of a plain decimal float literal `"[±]a.b"` toward zero
(`int(float(s))`).  Exponent / infinity spellings do not occur in the facet
counts this routine is applied to and are treated as unparsable. -/
def parseFloatTrunc (s : String) : Option Int :=
  match s.split (fun c => c = '.') with
  | [a, b] =>
    let (sgn, digits) : Int × String :=
      if a.startsWith "-" then (-1, a.drop 1)
      else if a.startsWith "+" then (1, a.drop 1) else (1, a)
    if b.all Char.isDigit && digits.all Char.isDigit &&
        (digits ≠ "" || b ≠ "") then
      some (sgn * (digits.toNat?.getD 0 : Nat))
    else
      none
  | _ => none

/-- Model of `_coerce_int` (taiyo/types.py): best-effort conversion of facet counts;
bools map to 0/1, ints pass through, strings are parsed as int then as a
truncated float, everything else (including `None`) collapses to 0. -/
def coerceInt : Json → Int
  | .b v => if v then 1 else 0
  | .i n => n
  | .s v =>
    match v.toInt? with
    | some n => n
    | none =>
      match parseFloatTrunc v with
      | some n => n
      | none => 0
  | _ => 0

/-- Model of `SolrFacetFieldValue`: one bucket of a legacy field facet. -/
structure SolrFacetFieldValue where
  value : Json
  count : Int
  extra : List (String × Json) := []
deriving Repr

/-- Model of `SolrFacetFieldResult`: a parsed legacy field facet. -/
structure SolrFacetFieldResult where
  buckets : List SolrFacetFieldValue := []
  missing : Option Int := none
  num_buckets : Option Int := none
  metadata : List (String × Json) := []
deriving Repr

/-- The flat `[value, count, value, count, …]` loop of `_parse_field_facet`
(`for index in range(0, len(raw_field), 2)`; a trailing unpaired value gets
count 0). -/
def parsePairs : List Json → List SolrFacetFieldValue
  | [] => []
  | [v] => [⟨v, 0, []⟩]
  | v :: c :: rest => ⟨v, coerceInt c, []⟩ :: parsePairs rest

/-- The list-of-lists loop of `_parse_field_facet`: skip non-lists and empty
lists; `entry[1]` is the count when present, `entry[2]` the extra payload
when present and a dict. -/
def parseListEntries : List Json → List SolrFacetFieldValue
  | [] => []
  | e :: rest =>
    match e with
    | .arr (v :: more) =>
      let count : Int := match more with | c :: _ => coerceInt c | [] => 0
      let extra : List (String × Json) :=
        match more with
        | _ :: (.obj kvs) :: _ => kvs
        | _ => []
      ⟨v, count, extra⟩ :: parseListEntries rest
    | _ => parseListEntries rest

/-- The dict loop of `_parse_field_facet`: left-to-right over the items,
`"missing"`/`"numBuckets"` update the side fields (coerced to int), a dict
value contributes its `"count"` entry as the bucket count and its remaining
entries as extras, any other value is coerced to the bucket count. -/
def parseMapAux :
    List (String × Json) → List SolrFacetFieldValue → Option Int → Option Int →
    List SolrFacetFieldValue × Option Int × Option Int
  | [], acc, m, nb => (acc, m, nb)
  | (k, v) :: rest, acc, m, nb =>
    if k = "missing" then parseMapAux rest acc (some (coerceInt v)) nb
    else if k = "numBuckets" then parseMapAux rest acc m (some (coerceInt v))
    else
      match v with
      | .obj sub =>
        parseMapAux rest
          (acc ++ [⟨.s k, coerceInt ((Json.lookup sub "count").getD .null),
                   sub.filter (fun p => p.1 ≠ "count")⟩]) m nb
      | _ => parseMapAux rest (acc ++ [⟨.s k, coerceInt v, []⟩]) m nb

/-- Model of `SolrFacetResult._parse_field_facet` (taiyo/types.py): accepts the
list-of-lists form, the flat pair-array form, the map form, or anything else
(kept as raw metadata). -/
def parse_field_facet : Json → SolrFacetFieldResult
  | .arr xs =>
    match xs with
    | (.arr _) :: _ => { buckets := parseListEntries xs }
    | _ => { buckets := parsePairs xs }
  | .obj kvs =>
    let r := parseMapAux kvs [] none none
    { buckets := r.1, missing := r.2.1, num_buckets := r.2.2 }
  | other => { metadata := [("raw", other)] }

/-- Python `x[n]` with an int index on an arbitrary value (used by the
range-facet entry loop, which does not re-check entry types). -/
def pyIndex : Json → Nat → Except PyErr Json
  | .arr xs, n =>
    match xs.get? n with
    | some v => .ok v
    | none => .error (.valueError "list index out of range")
  | .s v, n =>
    match v.data.get? n with
    | some c => .ok (.s (String.mk [c]))
    | none => .error (.valueError "string index out of range")
  | .obj _, _ => .error (.keyError "0")
  | _, _ => .error (.typeError "object is not subscriptable")

/-- Python `len(x)`. -/
def pyLen : Json → Except PyErr Nat
  | .arr xs => .ok xs.length
  | .s v => .ok v.length
  | .obj kvs => .ok kvs.length
  | _ => .error (.typeError "object has no len")

/-- Model of `SolrFacetRangeBucket`: one bucket of a legacy range facet. -/
structure SolrFacetRangeBucket where
  value : Json
  count : Int
  extra : List (String × Json) := []
deriving Repr

/-- Model of `SolrFacetRangeResult`: a parsed legacy range facet. -/
structure SolrFacetRangeResult where
  buckets : List SolrFacetRangeBucket := []
  gap : Json := .null
  start : Json := .null
  end_ : Json := .null
  before : Option Int := none
  after : Option Int := none
  between : Option Int := none
  metadata : List (String × Json) := []
deriving Repr

/-- The flat pair loop of `_parse_range_facet`. -/
def parseRangePairs : List Json → List SolrFacetRangeBucket
  | [] => []
  | [v] => [⟨v, 0, []⟩]
  | v :: c :: rest => ⟨v, coerceInt c, []⟩ :: parseRangePairs rest

/-- The list-of-lists loop of `_parse_range_facet`: only falsey entries are
skipped (`if not entry: continue`), so a truthy non-list entry raises just as
in Python. -/
def parseRangeEntries : List Json → Except PyErr (List SolrFacetRangeBucket)
  | [] => .ok []
  | e :: rest =>
    if pyTruthy e then do
      let v ← pyIndex e 0
      let len ← pyLen e
      let count ← if 1 < len then (pyIndex e 1).map coerceInt else pure 0
      let extra ←
        if 2 < len then
          (pyIndex e 2).map (fun x => match x with | .obj kvs => kvs | _ => [])
        else pure []
      let tail ← parseRangeEntries rest
      .ok (⟨v, count, extra⟩ :: tail)
    else parseRangeEntries rest

/-- Model of `SolrFacetResult._parse_range_facet` (taiyo/types.py). -/
def parse_range_facet : Json → Except PyErr SolrFacetRangeResult
  | .obj kvs => do
    let buckets ←
      match Json.lookup kvs "counts" with
      | some (.arr cs) =>
        match cs with
        | (.arr _) :: _ => parseRangeEntries cs
        | _ => .ok (parseRangePairs cs)
      | _ => .ok []
    let before :=
      match Json.lookup kvs "before" with
      | some v => some (coerceInt v)
      | none => none
    let after :=
      match Json.lookup kvs "after" with
      | some v => some (coerceInt v)
      | none => none
    let between :=
      match Json.lookup kvs "between" with
      | some v => some (coerceInt v)
      | none => none
    .ok { buckets := buckets,
          gap := (Json.lookup kvs "gap").getD .null,
          start := (Json.lookup kvs "start").getD .null,
          end_ := (Json.lookup kvs "end").getD .null,
          before := before, after := after, between := between,
          metadata :=
            (["hardend", "other", "within", "include", "mean"] : List String).filterMap
              (fun k => (Json.lookup kvs k).map (fun v => (k, v))) }
  | other => .ok { metadata := [("raw", other)] }

/-- Model of `SolrJsonFacetNode` (recursive JSON-facet tree); a bucket is
`(val, count, metrics, child facets)`. -/
inductive SolrJsonFacetNode where
  | mk (count : Option Int) (missing : Option Int)
       (buckets : List (Json × Int × List (String × Json) ×
                        List (String × SolrJsonFacetNode)))
       (metrics : List (String × Json))
       (facets : List (String × SolrJsonFacetNode))

mutual

/-- The bucket loop of `SolrJsonFacetNode.from_dict`: non-dict buckets are
skipped; each dict bucket keeps `val`/`count` and splits the rest into
metrics and recursively parsed child facets. -/
def jfBuckets (fuel : Nat) :
    List Json →
    Except PyErr (List (Json × Int × List (String × Json) ×
                        List (String × SolrJsonFacetNode)))
  | [] => .ok []
  | bkt :: rest =>
    match bkt with
    | .obj bkvs => do
      let ⟨ms, fs⟩ ← jfEntries fuel
        (bkvs.filter (fun p => ¬(p.1 = "val" ∨ p.1 = "count")))
      let tail ← jfBuckets fuel rest
      .ok (((Json.lookup bkvs "val").getD .null,
            coerceInt ((Json.lookup bkvs "count").getD .null), ms, fs) :: tail)
    | _ => jfBuckets fuel rest

/-- The metric/child-facet classification loop of
`SolrJsonFacetNode.from_dict`: a dict value carrying `buckets` or `count` is
a child facet, anything else a metric. -/
def jfEntries (fuel : Nat) :
    List (String × Json) →
    Except PyErr (List (String × Json) × List (String × SolrJsonFacetNode))
  | [] => .ok ([], [])
  | (k, v) :: rest =>
    match v with
    | .obj kvs =>
      if kvs.any (fun p => p.1 = "buckets") || kvs.any (fun p => p.1 = "count") then do
        let node ← jfFromDict fuel kvs
        let ⟨ms, fs⟩ ← jfEntries fuel rest
        .ok (ms, (k, node) :: fs)
      else do
        let ⟨ms, fs⟩ ← jfEntries fuel rest
        .ok ((k, .obj kvs) :: ms, fs)
    | _ => do
      let ⟨ms, fs⟩ ← jfEntries fuel rest
      .ok ((k, v) :: ms, fs)

/-- Model of `SolrJsonFacetNode.from_dict`, fuel-indexed so that the nested recursion
is structurally total; the fuel strictly exceeds the nesting depth at every
call site (`SolrJsonFacetNode.from_dict` below passes a size bound), so the
fuel-exhaustion branch is unreachable there. -/
def jfFromDict : Nat → List (String × Json) → Except PyErr SolrJsonFacetNode
  | 0, _ => .error (.valueError "facet nesting exceeds size bound")
  | fuel + 1, data => do
    let buckets ←
      match Json.lookup data "buckets" with
      | some (.arr bs) => jfBuckets fuel bs
      | _ => .ok []
    let ⟨metrics, facets⟩ ← jfEntries fuel
      (data.filter (fun p => ¬(p.1 = "count" ∨ p.1 = "missing" ∨ p.1 = "buckets")))
    let count ← validateOptInt ((Json.lookup data "count").getD .null)
    let missing ← validateOptInt ((Json.lookup data "missing").getD .null)
    .ok (.mk count missing buckets metrics facets)

end

mutual

/-- Structural size of a JSON value (fuel bound for the facet recursion). -/
def Json.size : Json → Nat
  | .null => 1
  | .b _ => 1
  | .i _ => 1
  | .s _ => 1
  | .arr xs => 1 + Json.sizeList xs
  | .obj kvs => 1 + Json.sizeKVList kvs

def Json.sizeList : List Json → Nat
  | [] => 0
  | x :: xs => Json.size x + Json.sizeList xs

def Json.sizeKVList : List (String × Json) → Nat
  | [] => 0
  | p :: xs => Json.size p.2 + Json.sizeKVList xs

end

/-- Model of `SolrJsonFacetNode.from_dict` at a sufficient fuel (the nesting depth of
a JSON value is bounded by its size). -/
def SolrJsonFacetNode.from_dict (data : List (String × Json)) :
    Except PyErr SolrJsonFacetNode :=
  jfFromDict (Json.sizeKVList data + 1) data

/-- Model of `SolrFacetResult` (classic + JSON facet APIs). -/
structure SolrFacetResult where
  queries : List (String × Int) := []
  fields : List (String × SolrFacetFieldResult) := []
  ranges : List (String × SolrFacetRangeResult) := []
  intervals : List (String × Json) := []
  pivots : List (String × Json) := []
  heatmaps : List (String × Json) := []
  json_facets : Option SolrJsonFacetNode := none

/-- Model of `SolrFacetResult.from_response` (taiyo/types.py): returns `None` when
neither a legacy `facet_counts` dict nor a modern `facets` dict is present;
otherwise parses each legacy section when it is a dict and the JSON facets
when present. -/
def SolrFacetResult.from_response (response : List (String × Json)) :
    Except PyErr (Option SolrFacetResult) :=
  let parsed_legacy : List (String × Json) :=
    match Json.lookup response "facet_counts" with
    | some (.obj kvs) => kvs
    | _ => []
  let parsed_json : List (String × Json) :=
    match Json.lookup response "facets" with
    | some (.obj kvs) => kvs
    | _ => []
  if parsed_legacy.isEmpty && parsed_json.isEmpty then .ok none
  else do
    let queries : List (String × Int) :=
      match Json.lookup parsed_legacy "facet_queries" with
      | some (.obj qs) =>
        qs.filterMap (fun p =>
          match p.2 with
          | .null => none
          | v => some (p.1, coerceInt v))
      | _ => []
    let fields : List (String × SolrFacetFieldResult) :=
      match Json.lookup parsed_legacy "facet_fields" with
      | some (.obj fs) => fs.map (fun p => (p.1, parse_field_facet p.2))
      | _ => []
    let ranges ←
      match Json.lookup parsed_legacy "facet_ranges" with
      | some (.obj rs) =>
        rs.mapM (fun p => (parse_range_facet p.2).map (fun r => (p.1, r)))
      | _ => .ok []
    let passthrough := fun (k : String) =>
      match Json.lookup parsed_legacy k with
      | some (.obj kvs) => kvs
      | _ => ([] : List (String × Json))
    let json_facets ←
      if parsed_json.isEmpty then pure none
      else (SolrJsonFacetNode.from_dict parsed_json).map some
    .ok (some
      { queries := queries, fields := fields, ranges := ranges,
        intervals := passthrough "facet_intervals",
        pivots := passthrough "facet_pivot",
        heatmaps := passthrough "facet_heatmaps",
        json_facets := json_facets })

/-- Model of `SolrDocument` (pydantic model with `extra="allow"` and no declared
fields): validation accepts any dict and stores its fields. -/
structure SolrDocument where
  fields : List (String × Json)
deriving Repr

/-- Model of `document_model.model_validate` for the base `SolrDocument` (used as the
caller-supplied document-identity type throughout): a dict validates, any
other input raises a `ValidationError`.  With no declared fields, `by_name`
and `by_alias` validation coincide. -/
def SolrDocument.model_validate : Json → Except PyErr SolrDocument
  | .obj kvs => .ok ⟨kvs⟩
  | _ => .error (.validationError "input should be a dict")

/-- The decoder's per-document `try model_validate(by_name) except
ValidationError: model_validate(by_alias)` pattern. -/
def tryValidateDoc (j : Json) : Except PyErr SolrDocument :=
  match SolrDocument.model_validate j with
  | .ok d => .ok d
  | .error (.validationError _) => SolrDocument.model_validate j
  | .error e => .error e

/-- Model of `SolrGroup` (taiyo/types.py). -/
structure SolrGroup where
  group_value : Json := .null
  doclist : List (String × Json)
  group_offset : Option Int := none
deriving Repr

/-- Model of `SolrGroupedField` (taiyo/types.py). -/
structure SolrGroupedField where
  matches_ : Int
  groups : Option (List SolrGroup) := none
  doclist : Option (List (String × Json)) := none
  ngroups : Option Int := none
  facet : Option (List (String × Json)) := none
deriving Repr

/-- Model of `SolrGroupingResult` (taiyo/types.py). -/
structure SolrGroupingResult where
  grouped : List (String × SolrGroupedField)
  group_sort : Option String := none
  group_limit : Option Int := none
  group_offset : Option Int := none
  group_format : Option String := none
  distributed_caveats : Option String := none
deriving Repr

/-- Model of `SolrMoreLikeThisResult` (taiyo/types.py); `interesting_terms` keeps a
list or dict payload unmodified. -/
structure SolrMoreLikeThisResult where
  num_found : Int
  start : Int
  num_found_exact : Option Bool := none
  docs : List SolrDocument
  interesting_terms : Option Json := none
deriving Repr

/-- Pydantic validation of `Optional[Union[List[Any], Dict[str, Any]]]`. -/
def validateInterestingTerms : Json → Except PyErr (Option Json)
  | .null => .ok none
  | .arr xs => .ok (some (.arr xs))
  | .obj kvs => .ok (some (.obj kvs))
  | _ => .error (.validationError "value is not a valid list or dict")

/-- Pydantic validation of `List[str]`. -/
def validateStrList : Json → Except PyErr (List String)
  | .arr xs =>
    xs.mapM (fun x =>
      match x with
      | .s v => Except.ok v
      | _ => Except.error (.validationError "value is not a valid string"))
  | _ => .error (.validationError "value is not a valid list")

/-- Pydantic validation of `Optional[Dict[str, Dict[str, List[str]]]]`
(`SolrResponse.highlighting`). -/
def validateHighlighting (j : Json) :
    Except PyErr (Option (List (String × List (String × List String)))) :=
  match j with
  | .null => .ok none
  | .obj kvs =>
    (kvs.mapM (fun (p : String × Json) =>
      match p.2 with
      | .obj inner =>
        (inner.mapM (fun (q : String × Json) =>
          (validateStrList q.2).map (fun l => (q.1, l)))).map
          (fun l => (p.1, l))
      | _ => Except.error (.validationError "value is not a valid dict"))).map some
  | _ => .error (.validationError "value is not a valid dict")

/-- Model of `SolrResponse` (taiyo/types.py): the decoded result envelope.  There is
no field holding the raw payload. -/
structure SolrResponse where
  status : Int
  query_time : Int
  num_found : Int
  start : Int
  docs : List SolrDocument
  facets : Option SolrFacetResult := none
  highlighting : Option (List (String × List (String × List String))) := none
  more_like_this : Option (List (String × SolrMoreLikeThisResult)) := none
  grouping : Option SolrGroupingResult := none

/-- The per-group loop of the grouped branch: parse each group's doclist
docs, accumulate `int(doclist.get("numFound", 0))`, and build one
`SolrGroup` per entry. -/
def groupEntriesLoop : List Json →
    Except PyErr (List SolrDocument × Int × List SolrGroup)
  | [] => .ok ([], 0, [])
  | g :: rest => do
    let doclist ← pyGetD g "doclist" (.obj [])
    let docsJ ← pyGetD doclist "docs" (.arr [])
    let items ← pyIter docsJ
    let docs ← items.mapM tryValidateDoc
    let nfJ ← pyGetD doclist "numFound" (.i 0)
    let nf ← pyInt nfJ
    let gvJ ← pyGetD g "groupValue" .null
    let dkvs ←
      match doclist with
      | .obj kvs => Except.ok kvs
      | _ => Except.error (.validationError "value is not a valid dict")
    let goJ ← pyGetD g "groupOffset" .null
    let go ← validateOptInt goJ
    let rec_ ← groupEntriesLoop rest
    .ok (docs ++ rec_.1, nf + rec_.2.1,
         ⟨gvJ, dkvs, go⟩ :: rec_.2.2)

/-- The per-field loop of the grouped branch: a field carrying a `groups`
list builds one `SolrGroup` per entry; a field carrying a single `doclist`
is the group-by-query shorthand; anything else contributes nothing. -/
def groupedFieldLoop : List (String × Json) →
    Except PyErr (List SolrDocument × Int × List (String × SolrGroupedField))
  | [] => .ok ([], 0, [])
  | (gf, gd) :: rest => do
    let hasGroups ← pyContains gd "groups"
    if hasGroups then do
      let groupsJson ← pyGetD gd "groups" (.arr [])
      let entries ← pyIter groupsJson
      let r ← groupEntriesLoop entries
      let matchesJ ← pyGetD gd "matches" (.i 0)
      let m ← validateInt matchesJ
      let ngroups ← do
        let v ← pyGetD gd "ngroups" .null
        validateOptInt v
      let facet ← do
        let v ← pyGetD gd "facet" .null
        validateOptDict v
      let tail ← groupedFieldLoop rest
      .ok (r.1 ++ tail.1, r.2.1 + tail.2.1,
           (gf, { matches_ := m, groups := some r.2.2,
                  ngroups := ngroups, facet := facet }) :: tail.2.2)
    else do
      let hasDoclist ← pyContains gd "doclist"
      if hasDoclist then do
        let doclist ← pyGetD gd "doclist" (.obj [])
        let docsJ ← pyGetD doclist "docs" (.arr [])
        let items ← pyIter docsJ
        let docs ← items.mapM tryValidateDoc
        let nfJ ← pyGetD doclist "numFound" (.i 0)
        let nf ← pyInt nfJ
        let matchesJ ← pyGetD gd "matches" (.i 0)
        let m ← validateInt matchesJ
        let dkvs ←
          match doclist with
          | .obj kvs => Except.ok (some kvs)
          | .null => Except.ok none
          | _ => Except.error (.validationError "value is not a valid dict")
        let ngroups ← do
          let v ← pyGetD gd "ngroups" .null
          validateOptInt v
        let facet ← do
          let v ← pyGetD gd "facet" .null
          validateOptDict v
        let tail ← groupedFieldLoop rest
        .ok (docs ++ tail.1, nf + tail.2.1,
             (gf, { matches_ := m, doclist := dkvs,
                    ngroups := ngroups, facet := facet }) :: tail.2.2)
      else groupedFieldLoop rest

/-- The branch selection of `BaseSolrClient._build_search_response`: the flat
`response` shape, the `grouped` shape, or the unknown shape (left at the
initial empty/zero locals).  The `numFound`/`start` locals stay untyped
(`Json`) exactly as in Python; they are validated only when the
`SolrResponse` is constructed. -/
def mainSection (response : List (String × Json)) :
    Except PyErr (List SolrDocument × Json × Json × Option SolrGroupingResult) :=
  if response.any (fun p => p.1 = "response") then do
    let r := (Json.lookup response "response").getD .null
    let docsJson ← pySubscript r "docs"
    let items ← pyIter docsJson
    let docs ← items.mapM tryValidateDoc
    let nfJson ← pySubscript r "numFound"
    let stJson ← pySubscript r "start"
    .ok (docs, nfJson, stJson, none)
  else if response.any (fun p => p.1 = "grouped") then do
    let g := (Json.lookup response "grouped").getD .null
    match g with
    | .obj gkvs => do
      let r ← groupedFieldLoop gkvs
      let group_sort ← validateOptStr ((Json.lookup response "group.sort").getD .null)
      let group_limit ← validateOptInt ((Json.lookup response "group.limit").getD .null)
      let group_offset ← validateOptInt ((Json.lookup response "group.offset").getD .null)
      let group_format ← validateOptStr ((Json.lookup response "group.format").getD .null)
      let dc ← validateOptStr ((Json.lookup response "distributed_caveats").getD .null)
      .ok (r.1, .i r.2.1, .i 0,
           some { grouped := r.2.2, group_sort := group_sort,
                  group_limit := group_limit, group_offset := group_offset,
                  group_format := group_format, distributed_caveats := dc })
    | _ => .error (.attributeError "object has no attribute items")
  else
    .ok ([], .i 0, .i 0, none)

/-- The `moreLikeThis` loop: non-dict payloads are skipped; `docs` defaults
to `[]` (`payload.get("docs", []) or []`); the per-id `interestingTerms`
payload is attached after `Optional[Union[list, dict]]` validation. -/
def mltLoop (rawIT : Option Json) : List (String × Json) →
    Except PyErr (List (String × SolrMoreLikeThisResult))
  | [] => .ok []
  | (doc_id, payload) :: rest =>
    match payload with
    | .obj pkvs => do
      let pd := (Json.lookup pkvs "docs").getD (.arr [])
      let pd := if pyTruthy pd then pd else .arr []
      let items ← pyIter pd
      let docs ← items.mapM tryValidateDoc
      let dit : Json :=
        match rawIT with
        | some (.obj itkvs) => (Json.lookup itkvs doc_id).getD .null
        | some other => other
        | none => .null
      let nf ← validateInt ((Json.lookup pkvs "numFound").getD (.i 0))
      let st ← validateInt ((Json.lookup pkvs "start").getD (.i 0))
      let nfe ← validateOptBool ((Json.lookup pkvs "numFoundExact").getD .null)
      let it ← validateInterestingTerms dit
      let tail ← mltLoop rawIT rest
      .ok ((doc_id, { num_found := nf, start := st, num_found_exact := nfe,
                      docs := docs, interesting_terms := it }) :: tail)
    | _ => mltLoop rawIT rest

/-- The `moreLikeThis` section: only a dict payload is processed. -/
def mltSection (response : List (String × Json)) :
    Except PyErr (Option (List (String × SolrMoreLikeThisResult))) :=
  let rawIT := Json.lookup response "interestingTerms"
  match Json.lookup response "moreLikeThis" with
  | some (.obj mkvs) => (mltLoop rawIT mkvs).map some
  | _ => .ok none

/-- The tail of `_build_search_response`: the `moreLikeThis` section, the
facet section, and the `SolrResponse` construction (including the
`responseHeader` lookups and the pydantic validation of the typed fields;
`more_like_this or None` collapses an empty dict to `None`). -/
def finishResponse (response : List (String × Json))
    (docs : List SolrDocument) (nf st : Json)
    (grouping : Option SolrGroupingResult) : Except PyErr SolrResponse := do
  let mlt ← mltSection response
  let facets ← SolrFacetResult.from_response response
  let rh := (Json.lookup response "responseHeader").getD (.obj [])
  let statusJ ← pyGetD rh "status" (.i 0)
  let status ← validateInt statusJ
  let qtJ ← pyGetD rh "QTime" (.i 0)
  let qt ← validateInt qtJ
  let nfI ← validateInt nf
  let stI ← validateInt st
  let hl ← validateHighlighting ((Json.lookup response "highlighting").getD .null)
  .ok { status := status, query_time := qt, num_found := nfI, start := stI,
        docs := docs, facets := facets, highlighting := hl,
        more_like_this :=
          (match mlt with
           | some l => if l.isEmpty then none else some l
           | none => none),
        grouping := grouping }

/-- Model of `BaseSolrClient._build_search_response` (taiyo/client/base.py) with the
base `SolrDocument` as the document model.  The input is the decoded
top-level JSON dict (`Dict[str, Any]` in the Python signature). -/
def build_search_response (response : List (String × Json)) :
    Except PyErr SolrResponse := do
  let r ← mainSection response
  finishResponse response r.1 r.2.1 r.2.2.1 r.2.2.2

/-! Helper lemmas about the dump lists. -/

theorem serialize_configs_nil (params : Params) :
    serialize_configs [] params = params := rfl

theorem lastVal_append_singleton (u : Params) (k : String) (v : PVal) :
    lastVal (u ++ [(k, v)]) k = some v := by
  unfold lastVal
  rw [List.reverse_append]
  simp [List.find?]

theorem lastVal_append_singleton_ne (u : Params) (k k' : String) (v : PVal)
    (h : k' ≠ k) : lastVal (u ++ [(k, v)]) k' = lastVal u k' := by
  unfold lastVal
  rw [List.reverse_append]
  simp only [List.reverse_singleton, List.singleton_append]
  rw [List.find?_cons_of_neg _ (by simpa using fun hh => h hh.symm)]

theorem lastVal_eq_none (u : Params) (k : String)
    (h : ∀ p ∈ u, p.1 ≠ k) : lastVal u k = none := by
  unfold lastVal
  rw [List.find?_eq_none.mpr]
  · rfl
  · intro x hx
    simpa using h x (List.mem_reverse.mp hx)

/-- The wire aliases of the common fields. -/
def commonKeys : List String :=
  ["sort", "start", "rows", "canCancel", "queryUUID", "fq", "fl", "debug",
   "explainOther", "partialResults", "timeAllowed", "cpuAllowed",
   "maxHitsAllowed", "memAllowed", "segmentTerminateEarly", "multiThreaded",
   "omitHeader", "writer_type", "logParamsList", "echoParams", "minExactCount"]

theorem mem_dumpCommon_key (c : CommonParamsMixin) (p : String × PVal)
    (hp : p ∈ dumpCommon c) : p.1 ∈ commonKeys := by
  unfold dumpCommon at hp
  obtain ⟨a, ha, hfa⟩ := List.mem_filterMap.mp hp
  obtain ⟨v, hv, rfl⟩ : ∃ v, a.2 = some v ∧ (a.1, v) = p := by
    cases h2 : a.2 with
    | none => rw [h2] at hfa; simp at hfa
    | some v => rw [h2] at hfa; exact ⟨v, rfl, by simpa using hfa⟩
  simp only [commonSlots, List.mem_cons, List.not_mem_nil, or_false] at ha
  rcases ha with h|h|h|h|h|h|h|h|h|h|h|h|h|h|h|h|h|h|h|h|h <;>
    (subst h; simp [commonKeys])

theorem lastVal_dumpCommon_of_not_mem (c : CommonParamsMixin) (k : String)
    (h : k ∉ commonKeys) : lastVal (dumpCommon c) k = none := by
  apply lastVal_eq_none
  intro p hp he
  exact h (he ▸ mem_dumpCommon_key c p hp)

theorem dictGet_eq_none_iff_any (d : Params) (k : String) :
    dictGet d k = none ↔ d.any (fun p => p.1 = k) = false := by
  unfold dictGet
  rw [Option.map_eq_none']
  constructor
  · intro h
    rw [List.any_eq_false]
    intro p hp
    have := List.find?_eq_none.mp h p hp
    simpa using this
  · intro h
    rw [List.find?_eq_none]
    intro p hp
    have := List.any_eq_false.mp h p hp
    simpa using this

theorem dictSetdefault_of_none (d : Params) (k : String) (v : PVal)
    (h : dictGet d k = none) : dictSetdefault d k v = d ++ [(k, v)] := by
  unfold dictSetdefault
  rw [if_neg]
  rw [dictGet_eq_none_iff_any] at h
  simp [h]

theorem dictGet_append_singleton_self (d : Params) (k : String) (v : PVal)
    (h : dictGet d k = none) : dictGet (d ++ [(k, v)]) k = some v := by
  unfold dictGet at h ⊢
  rw [List.find?_append]
  rw [Option.map_eq_none'] at h
  rw [h]
  simp [List.find?]

theorem dictGet_append_singleton_ne (d : Params) (k k' : String) (v : PVal)
    (h : k' ≠ k) : dictGet (d ++ [(k, v)]) k' = dictGet d k' := by
  unfold dictGet
  rw [List.find?_append]
  cases hf : List.find? (fun p => decide (p.1 = k')) d with
  | some p => simp [hf]
  | none =>
    simp only [hf, Option.none_or]
    rw [List.find?_cons_of_neg _ (by simpa using fun hh => h hh.symm)]
    simp [List.find?]

/-- C2 (general part): with no attached SubConfigs, the KNN variant's
compiled map carries `q` equal to the embedded `{!knn topK=… f=…}` clause
followed by the bracketed, comma-space-separated vector literal, and the
`f`, `vector` and `topK` keys are absent from the flat map. -/
theorem C2_knn_query_compilation (p : KNNQueryParser) (h : p.configs = []) :
    dictGet (KNNQueryParser.build p) "q" =
      some (.s ("\x7b!knn topK=" ++ pyOptIntRepr (p.top_k.access (some 10)) ++ " " ++
        p.toDenseVectorSearchParamsMixin.vector_search_params ++ "\x7d" ++
        ("[" ++ String.intercalate ", " p.vector ++ "]"))) ∧
    dictGet (KNNQueryParser.build p) "f" = none ∧
    dictGet (KNNQueryParser.build p) "vector" = none ∧
    dictGet (KNNQueryParser.build p) "topK" = none := by
  have hb : KNNQueryParser.build p =
      dictUpdate [] (dumpCommon p.toCommonParamsMixin ++ [("q", .s p.query)]) := by
    rw [KNNQueryParser.build, h, serialize_configs_nil]
  have habs : ∀ k : String, k ∉ commonKeys → k ≠ "q" →
      dictGet (KNNQueryParser.build p) k = none := by
    intro k hk hq
    rw [hb, dictGet_dictUpdate, lastVal_append_singleton_ne _ _ _ _ hq,
        lastVal_dumpCommon_of_not_mem _ _ hk]
    rfl
  refine ⟨?_, habs "f" (by decide) (by decide),
      habs "vector" (by decide) (by decide),
      habs "topK" (by decide) (by decide)⟩
  rw [hb, dictGet_dictUpdate, lastVal_append_singleton]
  rfl

/-- C2 (the claim's concrete instance): `KNNQueryParser(field="v",
vector=[1.0, 2.0], top_k=5)` compiles `q == "{!knn topK=5 f=v}[1.0, 2.0]"`
with no `f`/`vector`/`topK` keys. -/
theorem C2_knn_query_compilation_witness :
    ({ field := "v", vector := ["1.0", "2.0"], top_k := .val 5 } :
        KNNQueryParser).configs = [] ∧
    dictGet (KNNQueryParser.build
        { field := "v", vector := ["1.0", "2.0"], top_k := .val 5 }) "q" =
      some (.s "{!knn topK=5 f=v}[1.0, 2.0]") ∧
    dictGet (KNNQueryParser.build
        { field := "v", vector := ["1.0", "2.0"], top_k := .val 5 }) "f" = none ∧
    dictGet (KNNQueryParser.build
        { field := "v", vector := ["1.0", "2.0"], top_k := .val 5 }) "vector" = none ∧
    dictGet (KNNQueryParser.build
        { field := "v", vector := ["1.0", "2.0"], top_k := .val 5 }) "topK" = none := by
  have h := C2_knn_query_compilation
    { field := "v", vector := ["1.0", "2.0"], top_k := .val 5 } rfl
  exact ⟨rfl, by rw [h.1]; rfl, h.2.1, h.2.2.1, h.2.2.2⟩

/-- C9 (counterexample): the claim spells the embedded clause as
`{!vectorSimilarity minReturn=X minTraverse=Y f=field}`, but the code renders
`minTraverse` before `minReturn`: at `field="v", vector=[0.1],
min_return=0.7, min_traverse=0.2` the compiled `q` does not begin with the
claimed clause. -/
theorem C9_vector_similarity_clause_counterexample :
    dictGet (VectorSimilarityQueryParser.build
        { field := "v", vector := ["0.1"],
          min_return := .val "0.7", min_traverse := .val "0.2" }) "q" =
      some (.s "{!vectorSimilarity minTraverse=0.2 minReturn=0.7 f=v}[0.1]") ∧
    isPrefixList "{!vectorSimilarity minReturn=0.7 minTraverse=0.2 f=v}".data
      "{!vectorSimilarity minTraverse=0.2 minReturn=0.7 f=v}[0.1]".data = false := by
  constructor
  · rfl
  · rfl

/-- C9 (amended): the compiled `q` of the vectorSimilarity variant is the
embedded clause `{!vectorSimilarity minTraverse=Y minReturn=X f=field …}` —
`minTraverse` first, then `minReturn`, then the vector-search params —
followed by the bracketed vector literal. -/
theorem C9_vector_similarity_clause (p : VectorSimilarityQueryParser)
    (h : p.configs = []) :
    dictGet (VectorSimilarityQueryParser.build p) "q" =
      some (.s ("\x7b!vectorSimilarity minTraverse=" ++
        pyOptFloatRepr (p.min_traverse.access none) ++ " minReturn=" ++
        pyOptFloatRepr (p.min_return.access none) ++ " " ++
        p.toDenseVectorSearchParamsMixin.vector_search_params ++ "\x7d" ++
        ("[" ++ String.intercalate ", " p.vector ++ "]"))) := by
  rw [VectorSimilarityQueryParser.build, h, serialize_configs_nil,
      dictGet_dictUpdate, lastVal_append_singleton]
  rfl

/-- C9 (witness for the amended claim, at the repository's own unit-test
input). -/
theorem C9_vector_similarity_clause_witness :
    ({ field := "vector", vector := ["0.1", "2.0", "3.9"],
       min_return := .val "0.7", min_traverse := .val "0.2" } :
        VectorSimilarityQueryParser).configs = [] ∧
    dictGet (VectorSimilarityQueryParser.build
        { field := "vector", vector := ["0.1", "2.0", "3.9"],
          min_return := .val "0.7", min_traverse := .val "0.2" }) "q" =
      some (.s "{!vectorSimilarity minTraverse=0.2 minReturn=0.7 f=vector}[0.1, 2.0, 3.9]") := by
  have h := C9_vector_similarity_clause
    { field := "vector", vector := ["0.1", "2.0", "3.9"],
      min_return := .val "0.7", min_traverse := .val "0.2" } rfl
  exact ⟨rfl, by rw [h]; rfl⟩

/-- C8: a Terms parser whose host request already carries filter clauses
compiles `fq` as the existing filter list with the `{!terms f=…}` clause
appended (never overwriting them), and `q` defaults to the match-everything
query `*:*` when no main query was supplied. -/
theorem C8_terms_filter_append (t : TermsQueryParser) (l : List String)
    (hc : t.configs = []) (hq : t.query = none) (hm : t.method = .unset)
    (hf : t.filters = .val l) (hl : l ≠ []) :
    dictGet (TermsQueryParser.build t) "fq" =
      some (.ls (l ++ ["\x7b!terms f=" ++ t.field ++ "\x7d" ++
        String.intercalate (t.separator.getD ",") t.terms])) ∧
    dictGet (TermsQueryParser.build t) "q" = some (.s "*:*") := by
  have hfq : t.filter_query =
      .ls (l ++ ["\x7b!terms f=" ++ t.field ++ "\x7d" ++
        String.intercalate (t.separator.getD ",") t.terms]) := by
    rw [TermsQueryParser.filter_query]
    rw [hm, hf]
    simp only [Setting.access, if_neg hl]
    rfl
  have hdump : TermsQueryParser.build t =
      dictSetdefault
        (dictUpdate [] (dumpCommon t.toCommonParamsMixin ++ [("fq", t.filter_query)]))
        "q" (.s "*:*") := by
    rw [TermsQueryParser.build, hc, serialize_configs_nil, hq, hm]
    simp [Setting.dump]
  have hget_fq : dictGet
      (dictUpdate [] (dumpCommon t.toCommonParamsMixin ++ [("fq", t.filter_query)]))
      "fq" = some t.filter_query := by
    rw [dictGet_dictUpdate, lastVal_append_singleton]
    rfl
  have hget_q : dictGet
      (dictUpdate [] (dumpCommon t.toCommonParamsMixin ++ [("fq", t.filter_query)]))
      "q" = none := by
    rw [dictGet_dictUpdate,
        lastVal_append_singleton_ne _ _ _ _ (by decide),
        lastVal_dumpCommon_of_not_mem _ _ (by decide)]
    rfl
  constructor
  · rw [hdump, dictSetdefault_of_none _ _ _ hget_q,
        dictGet_append_singleton_ne _ _ _ _ (by decide), hget_fq, hfq]
  · rw [hdump, dictSetdefault_of_none _ _ _ hget_q,
        dictGet_append_singleton_self _ _ _ hget_q]

/-- C8 (witness, the claim's concrete instance): `TermsQueryParser(
field="tags", terms=["a","b"], separator=",")` with existing filter
`["x:1"]` compiles `fq == ["x:1", "{!terms f=tags}a,b"]` and `q == "*:*"`. -/
theorem C8_terms_filter_append_witness :
    dictGet (TermsQueryParser.build
        { field := "tags", terms := ["a", "b"], separator := some ",",
          filters := .val ["x:1"] }) "fq" =
      some (.ls ["x:1", "{!terms f=tags}a,b"]) ∧
    dictGet (TermsQueryParser.build
        { field := "tags", terms := ["a", "b"], separator := some ",",
          filters := .val ["x:1"] }) "q" = some (.s "*:*") := by
  have h := C8_terms_filter_append
    { field := "tags", terms := ["a", "b"], separator := some ",",
      filters := .val ["x:1"] } ["x:1"] rfl rfl rfl rfl (by decide)
  exact ⟨by rw [h.1]; rfl, h.2⟩

theorem lastVal_eq_dictGet_of_nodup (d : Params) (k : String)
    (h : (d.map Prod.fst).Nodup) : lastVal d k = dictGet d k := by
  induction d with
  | nil => rfl
  | cons p t ih =>
    simp only [List.map_cons, List.nodup_cons] at h
    unfold lastVal dictGet
    rw [List.reverse_cons, List.find?_append]
    by_cases hp : p.1 = k
    · have hnone : List.find? (fun q => decide (q.1 = k)) t.reverse = none := by
        rw [List.find?_eq_none]
        intro x hx
        simp only [decide_eq_true_eq]
        intro hxk
        have hx1 : x.1 = p.1 := by rw [hxk, hp]
        exact h.1 (hx1 ▸ List.mem_map_of_mem Prod.fst (List.mem_reverse.mp hx))
      rw [hnone, Option.none_or,
          List.find?_cons_of_pos _ (by simpa using hp),
          List.find?_cons_of_pos _ (by simpa using hp)]
    · rw [List.find?_cons_of_neg _ (by simpa using hp),
          List.find?_cons_of_neg _ (by simpa using hp),
          List.find?_nil, Option.or_none]
      have ht := ih h.2
      unfold lastVal dictGet at ht
      exact ht

theorem nodupKeys_dictSet (d : Params) (k : String) (v : PVal)
    (h : (d.map Prod.fst).Nodup) : ((dictSet d k v).map Prod.fst).Nodup := by
  unfold dictSet
  by_cases hc : d.any (fun p => p.1 = k)
  · rw [if_pos hc]
    have heq : (d.map (fun p => if p.1 = k then (k, v) else p)).map Prod.fst =
        d.map Prod.fst := by
      rw [List.map_map]
      apply List.map_congr_left
      intro p _
      by_cases hp : p.1 = k
      · simp [hp]
      · simp [hp]
    rw [heq]
    exact h
  · rw [if_neg hc]
    rw [List.map_append]
    simp only [List.map_cons, List.map_nil]
    rw [List.nodup_append]
    refine ⟨h, List.nodup_singleton k, ?_⟩
    intro a ha hb
    simp only [List.mem_singleton] at hb
    subst hb
    obtain ⟨p, hp, hpk⟩ := List.mem_map.mp ha
    rw [Bool.not_eq_true, List.any_eq_false] at hc
    exact hc p hp (by simpa using hpk)

theorem nodupKeys_dictUpdate (d u : Params)
    (h : (d.map Prod.fst).Nodup) : ((dictUpdate d u).map Prod.fst).Nodup := by
  induction u generalizing d with
  | nil => exact h
  | cons p t ih =>
    exact ih (dictSet d p.1 p.2) (nodupKeys_dictSet d p.1 p.2 h)

theorem dictGet_dictUpdate_or (d u : Params) (k : String)
    (h : (u.map Prod.fst).Nodup) :
    dictGet (dictUpdate d u) k = (dictGet u k).or (dictGet d k) := by
  rw [dictGet_dictUpdate, lastVal_eq_dictGet_of_nodup u k h]

theorem keys_filterMap_dump_sublist (l : List (String × Setting PVal)) :
    ((l.filterMap (fun p => (p.2.dump).map (fun v => (p.1, v)))).map
      Prod.fst).Sublist (l.map Prod.fst) := by
  induction l with
  | nil => simp
  | cons p t ih =>
    cases hd : p.2.dump with
    | none =>
      rw [List.filterMap_cons, hd]
      simp only [Option.map_none', List.map_cons]
      exact ih.cons p.1
    | some v =>
      rw [List.filterMap_cons, hd]
      simp only [Option.map_some', List.map_cons]
      exact ih.cons₂ p.1

theorem dumpConfig_keys_nodup (c : ParamsConfig)
    (h : (c.fields.map Prod.fst).Nodup) :
    ((c.dumpConfig).map Prod.fst).Nodup :=
  h.sublist (keys_filterMap_dump_sublist c.fields)

theorem dictGet_eq_none_of_all_ne (d : Params) (k : String)
    (h : ∀ p ∈ d, p.1 ≠ k) : dictGet d k = none := by
  rw [dictGet_eq_none_iff_any, List.any_eq_false]
  intro p hp
  simpa using h p hp

/-- C3: composing SubConfigs into a host map sets each config's enable key
to true, merges each config's serialized fields in attachment order, and on
any wire-name collision the later-composed value wins — in particular, when
the same SubConfig type is attached twice, the second config's value stands
on every wire name of its dump, an untouched enable key reads `true`, and a
key no config touches keeps the host's value. -/
theorem C3_subconfig_last_writer_wins (host : Params) (c1 c2 : ParamsConfig)
    (hn2 : (c2.fields.map Prod.fst).Nodup) :
    (∀ k v, dictGet c2.dumpConfig k = some v →
      dictGet (serialize_configs [c1, c2] host) k = some v) ∧
    (∀ e : String, (∀ p ∈ c1.dumpConfig, p.1 ≠ e) →
      (∀ p ∈ c2.dumpConfig, p.1 ≠ e) →
      (e = c1.enable_key ∨ e = c2.enable_key) →
      dictGet (serialize_configs [c1, c2] host) e = some (.b true)) ∧
    (∀ k : String, (∀ p ∈ c1.dumpConfig, p.1 ≠ k) →
      (∀ p ∈ c2.dumpConfig, p.1 ≠ k) →
      k ≠ c1.enable_key → k ≠ c2.enable_key →
      dictGet (serialize_configs [c1, c2] host) k = dictGet host k) := by
  have hC : (((dictSet [] c1.enable_key (.b true)).map Prod.fst)).Nodup :=
    nodupKeys_dictSet [] _ _ (by simp)
  have hB := nodupKeys_dictUpdate _ c1.dumpConfig hC
  have hA := nodupKeys_dictSet (dictUpdate (dictSet [] c1.enable_key (.b true))
    c1.dumpConfig) c2.enable_key (.b true) hB
  have hU := nodupKeys_dictUpdate _ c2.dumpConfig hA
  have hser : serialize_configs [c1, c2] host =
      dictUpdate host
        (dictUpdate
          (dictSet (dictUpdate (dictSet [] c1.enable_key (.b true)) c1.dumpConfig)
            c2.enable_key (.b true))
          c2.dumpConfig) := rfl
  refine ⟨?_, ?_, ?_⟩
  · intro k v hv
    rw [hser, dictGet_dictUpdate_or _ _ _ hU,
        dictGet_dictUpdate_or _ _ _ (dumpConfig_keys_nodup c2 hn2), hv]
    rfl
  · intro e h1 h2 he
    rw [hser, dictGet_dictUpdate_or _ _ _ hU,
        dictGet_dictUpdate_or _ _ _ (dumpConfig_keys_nodup c2 hn2),
        dictGet_eq_none_of_all_ne _ _ h2]
    rcases he with he | he
    · subst he
      by_cases h12 : c1.enable_key = c2.enable_key
      · rw [h12, dictGet_dictSet_self]
        rfl
      · rw [dictGet_dictSet_ne _ _ _ _ h12, dictGet_dictUpdate,
            lastVal_eq_none _ _ h1, dictGet_dictSet_self]
        rfl
    · subst he
      rw [dictGet_dictSet_self]
      rfl
  · intro k h1 h2 hk1 hk2
    rw [hser, dictGet_dictUpdate_or _ _ _ hU,
        dictGet_dictUpdate_or _ _ _ (dumpConfig_keys_nodup c2 hn2),
        dictGet_eq_none_of_all_ne _ _ h2,
        dictGet_dictSet_ne _ _ _ _ hk2, dictGet_dictUpdate,
        lastVal_eq_none _ _ h1,
        dictGet_dictSet_ne _ _ _ _ hk1]
    rfl

/-- C3 (witness): two group configs with the same enable key `"group"` and a
colliding `group.limit`; the second config's values win on every overlapping
wire name, `group` reads `true`, and a foreign host key is untouched. -/
theorem C3_subconfig_last_writer_wins_witness :
    dictGet (serialize_configs
      [⟨"group", [("group.field", .val (.s "author")), ("group.limit", .val (.i 1))]⟩,
       ⟨"group", [("group.field", .val (.s "brand")), ("group.limit", .val (.i 5))]⟩]
      [("q", .s "*:*"), ("group.limit", .i 9)]) "group.limit" = some (.i 5) ∧
    dictGet (serialize_configs
      [⟨"group", [("group.field", .val (.s "author")), ("group.limit", .val (.i 1))]⟩,
       ⟨"group", [("group.field", .val (.s "brand")), ("group.limit", .val (.i 5))]⟩]
      [("q", .s "*:*"), ("group.limit", .i 9)]) "group.field" = some (.s "brand") ∧
    dictGet (serialize_configs
      [⟨"group", [("group.field", .val (.s "author")), ("group.limit", .val (.i 1))]⟩,
       ⟨"group", [("group.field", .val (.s "brand")), ("group.limit", .val (.i 5))]⟩]
      [("q", .s "*:*"), ("group.limit", .i 9)]) "group" = some (.b true) ∧
    dictGet (serialize_configs
      [⟨"group", [("group.field", .val (.s "author")), ("group.limit", .val (.i 1))]⟩,
       ⟨"group", [("group.field", .val (.s "brand")), ("group.limit", .val (.i 5))]⟩]
      [("q", .s "*:*"), ("group.limit", .i 9)]) "q" = some (.s "*:*") := by
  have h := C3_subconfig_last_writer_wins
    [("q", .s "*:*"), ("group.limit", .i 9)]
    ⟨"group", [("group.field", .val (.s "author")), ("group.limit", .val (.i 1))]⟩
    ⟨"group", [("group.field", .val (.s "brand")), ("group.limit", .val (.i 5))]⟩
    (by decide)
  refine ⟨h.1 "group.limit" (.i 5) (by rfl), h.1 "group.field" (.s "brand") (by rfl),
      h.2.1 "group" (by decide) (by decide) (Or.inl rfl),
      (h.2.2 "q" (by decide) (by decide) (by decide) (by decide)).trans (by rfl)⟩

theorem dictGet_some_imp_mem (d : Params) (k : String) (v : PVal)
    (h : dictGet d k = some v) : (k, v) ∈ d := by
  unfold dictGet at h
  cases hf : d.find? (fun p => p.1 = k) with
  | none => rw [hf] at h; simp at h
  | some q =>
    rw [hf] at h
    simp only [Option.map_some', Option.some_inj] at h
    have hq := List.find?_some hf
    have hm := List.mem_of_find?_eq_some hf
    have : q = (k, v) := by
      obtain ⟨q1, q2⟩ := q
      simp only [decide_eq_true_eq] at hq
      simp only at h
      rw [hq, h]
    exact this ▸ hm

theorem mem_dictSet (d : Params) (k : String) (v : PVal) (x : String × PVal)
    (h : x ∈ dictSet d k v) : x ∈ d ∨ x = (k, v) := by
  unfold dictSet at h
  by_cases hc : d.any (fun p => p.1 = k)
  · rw [if_pos hc] at h
    obtain ⟨p, hp, hpe⟩ := List.mem_map.mp h
    by_cases hpk : p.1 = k
    · rw [if_pos hpk] at hpe
      exact Or.inr hpe.symm
    · rw [if_neg hpk] at hpe
      exact Or.inl (hpe ▸ hp)
  · rw [if_neg hc] at h
    rcases List.mem_append.mp h with h | h
    · exact Or.inl h
    · simp only [List.mem_singleton] at h
      exact Or.inr h

theorem mem_dictUpdate (d u : Params) (x : String × PVal)
    (h : x ∈ dictUpdate d u) : x ∈ d ∨ x ∈ u := by
  induction u generalizing d with
  | nil => exact Or.inl h
  | cons p t ih =>
    rcases ih (dictSet d p.1 p.2) h with h1 | h1
    · rcases mem_dictSet d p.1 p.2 x h1 with h2 | h2
      · exact Or.inl h2
      · exact Or.inr (by simp [h2])
    · exact Or.inr (List.mem_cons_of_mem p h1)

theorem mem_configsFold (cs : List ParamsConfig) (u : Params) (x : String × PVal)
    (h : x ∈ cs.foldl
      (fun upd c => dictUpdate (dictSet upd c.enable_key (.b true)) c.dumpConfig)
      u) :
    x ∈ u ∨ ∃ c ∈ cs, x = (c.enable_key, .b true) ∨ x ∈ c.dumpConfig := by
  induction cs generalizing u with
  | nil => exact Or.inl h
  | cons c t ih =>
    rcases ih _ h with h1 | h1
    · rcases mem_dictUpdate _ _ _ h1 with h2 | h2
      · rcases mem_dictSet _ _ _ _ h2 with h3 | h3
        · exact Or.inl h3
        · exact Or.inr ⟨c, List.mem_cons_self c t, Or.inl h3⟩
      · exact Or.inr ⟨c, List.mem_cons_self c t, Or.inr h2⟩
    · obtain ⟨c', hc', h2⟩ := h1
      exact Or.inr ⟨c', List.mem_cons_of_mem c hc', h2⟩

theorem mem_serialize_configs (cs : List ParamsConfig) (params : Params)
    (x : String × PVal) (h : x ∈ serialize_configs cs params) :
    x ∈ params ∨ ∃ c ∈ cs, x = (c.enable_key, .b true) ∨ x ∈ c.dumpConfig := by
  unfold serialize_configs at h
  rcases mem_dictUpdate _ _ _ h with h1 | h1
  · exact Or.inl h1
  · rcases mem_configsFold cs [] x h1 with h2 | h2
    · simp at h2
    · exact Or.inr h2

theorem mem_dumpConfig (c : ParamsConfig) (k : String) (v : PVal)
    (h : (k, v) ∈ c.dumpConfig) : (k, Setting.val v) ∈ c.fields := by
  unfold ParamsConfig.dumpConfig at h
  obtain ⟨a, ha, hfa⟩ := List.mem_filterMap.mp h
  cases hd : a.2 with
  | unset => rw [show a.2.dump = none from by rw [hd]; rfl] at hfa; simp at hfa
  | noneSet => rw [show a.2.dump = none from by rw [hd]; rfl] at hfa; simp at hfa
  | val w =>
    rw [show a.2.dump = some w from by rw [hd]; rfl] at hfa
    simp only [Option.map_some', Option.some_inj] at hfa
    have h1 : a.1 = k := congrArg Prod.fst hfa
    have h2 : w = v := congrArg Prod.snd hfa
    have : a = (k, Setting.val v) := by
      obtain ⟨a1, a2⟩ := a
      simp only at h1 hd
      rw [h1, hd, h2]
    exact this ▸ ha

/-- An explicitly-set, non-`None` common field with wire alias `k` and
serialized value `v`: membership of `(k, some v)` in the alias/dump slot
list, i.e. the field aliased `k` is in state `Setting.val v`. -/
def commonExplicitEntry (c : CommonParamsMixin) (k : String) (v : PVal) : Prop :=
  (k, some v) ∈ commonSlots c

theorem mem_dumpCommon_explicit (c : CommonParamsMixin) (k : String) (v : PVal)
    (h : (k, v) ∈ dumpCommon c) : commonExplicitEntry c k v := by
  unfold dumpCommon at h
  obtain ⟨a, ha, hfa⟩ := List.mem_filterMap.mp h
  cases hd : a.2 with
  | none => rw [hd] at hfa; simp at hfa
  | some w =>
    rw [hd] at hfa
    simp only [Option.map_some', Option.some_inj] at hfa
    have h1 : a.1 = k := congrArg Prod.fst hfa
    have h2 : w = v := congrArg Prod.snd hfa
    have : a = (k, some v) := by
      obtain ⟨a1, a2⟩ := a
      simp only at h1 hd
      rw [h1, hd, h2]
    unfold commonExplicitEntry
    exact this ▸ ha

/-- C1 (amended): every entry of a compiled parameter map arises from an
explicitly-set non-`None` declared field, from the variant's computed clause
(`q` for the dense variants; `fq` and the build-time `q` default `"*:*"` for
the terms variant), from a SubConfig enable key set to `true`, or from an
explicitly-set SubConfig field — stated for the KNN parser
(`DenseVectorSearchQueryParser.build`) and the Terms parser
(`BaseQueryParser.build` plus its `q` setdefault); in particular no unset
and no `None`-valued field ever reaches the map. -/
theorem C1_explicit_fields_only :
    (∀ (p : KNNQueryParser) (k : String) (v : PVal),
      dictGet (KNNQueryParser.build p) k = some v →
        commonExplicitEntry p.toCommonParamsMixin k v ∨
        (k = "q" ∧ v = .s p.query) ∨
        (∃ c ∈ p.configs, (k, v) = (c.enable_key, .b true)) ∨
        (∃ c ∈ p.configs, (k, Setting.val v) ∈ c.fields)) ∧
    (∀ (t : TermsQueryParser) (k : String) (v : PVal),
      dictGet (TermsQueryParser.build t) k = some v →
        commonExplicitEntry t.toCommonParamsMixin k v ∨
        (k = "q" ∧ v = .s (t.query.getD "*:*")) ∨
        (k = "method" ∧ ∃ m, t.method = .val m ∧ v = .s m) ∨
        (k = "fq" ∧ v = t.filter_query) ∨
        (∃ c ∈ t.configs, (k, v) = (c.enable_key, .b true)) ∨
        (∃ c ∈ t.configs, (k, Setting.val v) ∈ c.fields)) := by
  constructor
  · intro p k v hget
    have hmem := dictGet_some_imp_mem _ _ _ hget
    rw [KNNQueryParser.build] at hmem
    rcases mem_serialize_configs _ _ _ hmem with h1 | ⟨c, hc, h1⟩
    · rcases mem_dictUpdate _ _ _ h1 with h2 | h2
      · simp at h2
      · rcases List.mem_append.mp h2 with h3 | h3
        · exact Or.inl (mem_dumpCommon_explicit _ _ _ h3)
        · simp only [List.mem_singleton, Prod.mk.injEq] at h3
          exact Or.inr (Or.inl ⟨h3.1, h3.2.symm ▸ rfl⟩)
    · rcases h1 with h1 | h1
      · exact Or.inr (Or.inr (Or.inl ⟨c, hc, h1⟩))
      · exact Or.inr (Or.inr (Or.inr ⟨c, hc, mem_dumpConfig c k v h1⟩))
  · intro t k v hget
    have hmem := dictGet_some_imp_mem _ _ _ hget
    rw [TermsQueryParser.build] at hmem
    have hmem2 : (k, v) ∈ serialize_configs t.configs
        (dictUpdate []
          (dumpCommon t.toCommonParamsMixin
            ++ (match t.query with | some q => [("q", PVal.s q)] | none => [])
            ++ (match t.method.dump with | some m => [("method", PVal.s m)] | none => [])
            ++ [("fq", t.filter_query)])) ∨
        (k, v) = ("q", PVal.s (t.query.getD "*:*")) := by
      unfold dictSetdefault at hmem
      by_cases hc : (serialize_configs t.configs
          (dictUpdate []
            (dumpCommon t.toCommonParamsMixin
              ++ (match t.query with | some q => [("q", PVal.s q)] | none => [])
              ++ (match t.method.dump with | some m => [("method", PVal.s m)] | none => [])
              ++ [("fq", t.filter_query)]))).any (fun p => p.1 = "q")
      · rw [if_pos hc] at hmem
        exact Or.inl hmem
      · rw [if_neg hc] at hmem
        rcases List.mem_append.mp hmem with h | h
        · exact Or.inl h
        · simp only [List.mem_singleton] at h
          exact Or.inr h
    rcases hmem2 with hmem2 | hmem2
    · rcases mem_serialize_configs _ _ _ hmem2 with h1 | ⟨c, hc, h1⟩
      · rcases mem_dictUpdate _ _ _ h1 with h2 | h2
        · simp at h2
        · rcases List.mem_append.mp h2 with h3 | h3
          · rcases List.mem_append.mp h3 with h4 | h4
            · rcases List.mem_append.mp h4 with h5 | h5
              · exact Or.inl (mem_dumpCommon_explicit _ _ _ h5)
              · cases hq : t.query with
                | none => rw [hq] at h5; simp at h5
                | some q =>
                  rw [hq] at h5
                  simp only [List.mem_singleton, Prod.mk.injEq] at h5
                  refine Or.inr (Or.inl ⟨h5.1, ?_⟩)
                  rw [h5.2]
                  rfl
            · cases hm : t.method.dump with
              | none => rw [hm] at h4; simp at h4
              | some m =>
                rw [hm] at h4
                simp only [List.mem_singleton, Prod.mk.injEq] at h4
                refine Or.inr (Or.inr (Or.inl ⟨h4.1, m, ?_, h4.2⟩))
                cases hmm : t.method with
                | val w =>
                  have : Setting.dump t.method = some w := by rw [hmm]; rfl
                  rw [hm] at this
                  simp only [Option.some_inj] at this
                  rw [this]
                | unset =>
                  have : Setting.dump t.method = none := by rw [hmm]; rfl
                  rw [hm] at this
                  simp at this
                | noneSet =>
                  have : Setting.dump t.method = none := by rw [hmm]; rfl
                  rw [hm] at this
                  simp at this
          · simp only [List.mem_singleton, Prod.mk.injEq] at h3
            exact Or.inr (Or.inr (Or.inr (Or.inl ⟨h3.1, h3.2⟩)))
      · rcases h1 with h1 | h1
        · exact Or.inr (Or.inr (Or.inr (Or.inr (Or.inl ⟨c, hc, h1⟩))))
        · exact Or.inr (Or.inr (Or.inr (Or.inr (Or.inr ⟨c, hc, mem_dumpConfig c k v h1⟩))))
    · simp only [Prod.mk.injEq] at hmem2
      exact Or.inr (Or.inl ⟨hmem2.1, hmem2.2⟩)

/-- C1 (witness for the amended claim): at KNN input `field="v",
vector=[1.0], rows explicitly 20`, the `rows` entry is classified as an
explicitly-set common field. -/
theorem C1_explicit_fields_only_witness :
    dictGet (KNNQueryParser.build
      { field := "v", vector := ["1.0"], rows := .val (.i 20) }) "rows" =
      some (.i 20) ∧
    (commonExplicitEntry
      ({ field := "v", vector := ["1.0"], rows := .val (.i 20) } :
        KNNQueryParser).toCommonParamsMixin "rows" (.i 20) ∨
      ("rows" = "q" ∧ (PVal.i 20) = .s (KNNQueryParser.query
        { field := "v", vector := ["1.0"], rows := .val (.i 20) })) ∨
      (∃ c ∈ ({ field := "v", vector := ["1.0"], rows := .val (.i 20) } :
          KNNQueryParser).configs, (("rows" : String), PVal.i 20) = (c.enable_key, .b true)) ∨
      (∃ c ∈ ({ field := "v", vector := ["1.0"], rows := .val (.i 20) } :
          KNNQueryParser).configs, (("rows" : String), Setting.val (PVal.i 20)) ∈ c.fields)) :=
  ⟨rfl, C1_explicit_fields_only.1
    { field := "v", vector := ["1.0"], rows := .val (.i 20) } "rows" (.i 20) rfl⟩

/-- C1 (counterexample): `TermsQueryParser(field="tags", terms=["a"])` leaves
its `query` field unset, yet the compiled map carries `q = "*:*"` — a field
left at its default is not omitted, contradicting the claim as stated. -/
theorem C1_counterexample :
    ({ field := "tags", terms := ["a"] } : TermsQueryParser).query = none ∧
    dictGet (TermsQueryParser.build { field := "tags", terms := ["a"] }) "q" =
      some (.s "*:*") :=
  ⟨rfl, rfl⟩

theorem lookup_none_any (kvs : List (String × Json)) (k : String)
    (h : Json.lookup kvs k = none) :
    kvs.any (fun p => p.1 = k) = false := by
  unfold Json.lookup at h
  rw [Option.map_eq_none'] at h
  rw [List.any_eq_false]
  intro p hp
  have := List.find?_eq_none.mp h p hp
  simpa using this

theorem except_bind_ok {ε α β : Type} (x : Except ε α) (f : α → Except ε β)
    (b : β) (h : (x >>= f) = .ok b) : ∃ a, x = .ok a ∧ f a = .ok b := by
  cases x with
  | error e =>
    simp only [bind, Except.bind] at h
    exact Except.noConfusion h
  | ok a => exact ⟨a, rfl, by simpa only [bind, Except.bind] using h⟩

theorem finishResponse_ok_fields (r : List (String × Json))
    (docs : List SolrDocument) (nf st : Json) (g : Option SolrGroupingResult)
    (env : SolrResponse) (h : finishResponse r docs nf st g = .ok env) :
    env.docs = docs ∧ validateInt nf = .ok env.num_found ∧ env.grouping = g := by
  unfold finishResponse at h
  obtain ⟨mlt, hmlt, h⟩ := except_bind_ok _ _ _ h
  obtain ⟨facets, hfac, h⟩ := except_bind_ok _ _ _ h
  obtain ⟨statusJ, hsj, h⟩ := except_bind_ok _ _ _ h
  obtain ⟨status, hst, h⟩ := except_bind_ok _ _ _ h
  obtain ⟨qtJ, hqj, h⟩ := except_bind_ok _ _ _ h
  obtain ⟨qt, hqt, h⟩ := except_bind_ok _ _ _ h
  obtain ⟨nfI, hnf, h⟩ := except_bind_ok _ _ _ h
  obtain ⟨stI, hsti, h⟩ := except_bind_ok _ _ _ h
  obtain ⟨hl, hhl, h⟩ := except_bind_ok _ _ _ h
  injection h with h
  subst h
  exact ⟨rfl, hnf, rfl⟩

/-- C5 (amended): whenever the top level carries neither a `response` nor a
`grouped` key and decoding succeeds, the envelope has an empty document list
and a zero found-count; decoding can still raise on a malformed auxiliary
section (see the counterexample), which is the only amendment. -/
theorem C5_unknown_shape_empty (r : List (String × Json))
    (h1 : Json.lookup r "response" = none)
    (h2 : Json.lookup r "grouped" = none)
    (env : SolrResponse) (hok : build_search_response r = .ok env) :
    env.docs = [] ∧ env.num_found = 0 ∧ env.grouping = none := by
  have hmain : mainSection r = .ok ([], .i 0, .i 0, none) := by
    unfold mainSection
    rw [if_neg (by rw [lookup_none_any r "response" h1]; exact Bool.false_ne_true),
        if_neg (by rw [lookup_none_any r "grouped" h2]; exact Bool.false_ne_true)]
  unfold build_search_response at hok
  rw [hmain] at hok
  obtain ⟨a, ha, hfin⟩ := except_bind_ok _ _ _ hok
  injection ha with ha
  subst ha
  have hf := finishResponse_ok_fields _ _ _ _ _ _ hfin
  refine ⟨hf.1, ?_, hf.2.2⟩
  have := hf.2.1
  rw [show validateInt (.i 0) = .ok 0 from rfl] at this
  injection this with this
  exact this.symm

/-- C5 (witness): the empty response decodes successfully to the empty
envelope, whose document list is empty and found-count zero. -/
theorem C5_unknown_shape_empty_witness :
    Json.lookup ([] : List (String × Json)) "response" = none ∧
    Json.lookup ([] : List (String × Json)) "grouped" = none ∧
    build_search_response [] =
      .ok { status := 0, query_time := 0, num_found := 0, start := 0, docs := [] } ∧
    (({ status := 0, query_time := 0, num_found := 0, start := 0, docs := [] } :
        SolrResponse).docs = [] ∧
      ({ status := 0, query_time := 0, num_found := 0, start := 0, docs := [] } :
        SolrResponse).num_found = 0 ∧
      ({ status := 0, query_time := 0, num_found := 0, start := 0, docs := [] } :
        SolrResponse).grouping = none) :=
  ⟨rfl, rfl, rfl, C5_unknown_shape_empty [] rfl rfl _ rfl⟩

/-- C5 (counterexample to the claim as stated): `{"responseHeader": 7}` has
neither a `response` nor a `grouped` key, yet decoding raises
(`7 .get("status", 0)` is an `AttributeError`), so "without raising" does not
hold universally. -/
theorem C5_unknown_shape_counterexample :
    Json.lookup [("responseHeader", Json.i 7)] "response" = none ∧
    Json.lookup [("responseHeader", Json.i 7)] "grouped" = none ∧
    build_search_response [("responseHeader", Json.i 7)] =
      .error (.attributeError "object has no attribute get") :=
  ⟨rfl, rfl, rfl⟩

/-- C4 (amended): decoding never raises and yields the empty envelope
(empty docs, zero counts, no facets/grouping/more-like-this/highlighting)
whenever none of the recognized top-level sections is present — any other
key is ignored; but a present, malformed section can raise (see the
counterexample), and the envelope carries no raw-payload field
(`SolrResponse` has none). -/
theorem C4_decode_tolerance (r : List (String × Json))
    (h_resp : Json.lookup r "response" = none)
    (h_grp : Json.lookup r "grouped" = none)
    (h_rh : Json.lookup r "responseHeader" = none)
    (h_hl : Json.lookup r "highlighting" = none)
    (h_mlt : Json.lookup r "moreLikeThis" = none)
    (h_fc : Json.lookup r "facet_counts" = none)
    (h_fs : Json.lookup r "facets" = none) :
    build_search_response r =
      .ok { status := 0, query_time := 0, num_found := 0, start := 0,
            docs := [] } := by
  have hmain : mainSection r = .ok ([], .i 0, .i 0, none) := by
    unfold mainSection
    rw [if_neg (by rw [lookup_none_any r "response" h_resp]; exact Bool.false_ne_true),
        if_neg (by rw [lookup_none_any r "grouped" h_grp]; exact Bool.false_ne_true)]
  have hml : mltSection r = .ok none := by
    unfold mltSection
    rw [h_mlt]
  have hfr : SolrFacetResult.from_response r = .ok none := by
    unfold SolrFacetResult.from_response
    rw [h_fc, h_fs]
    rfl
  unfold build_search_response
  rw [hmain]
  show finishResponse r [] (.i 0) (.i 0) none = _
  unfold finishResponse
  rw [hml, hfr, h_rh, h_hl]
  rfl

/-- C4 (witness): a response with only an unrecognized key decodes without
raising to the empty envelope. -/
theorem C4_decode_tolerance_witness :
    Json.lookup [("unrecognized", Json.s "x")] "response" = none ∧
    build_search_response [("unrecognized", Json.s "x")] =
      .ok { status := 0, query_time := 0, num_found := 0, start := 0,
            docs := [] } :=
  ⟨rfl, C4_decode_tolerance [("unrecognized", Json.s "x")]
    rfl rfl rfl rfl rfl rfl rfl⟩

/-- C4 (counterexample to the claim as stated): the decoder *does* raise on
a malformed shape — `{"response": {}}` reaches
`response["response"]["docs"]` and raises `KeyError("docs")`; so "for every
raw JSON response, including malformed shapes, the decoder never raises" is
false (and the envelope preserves no raw payload either). -/
theorem C4_decode_tolerance_counterexample :
    build_search_response [("response", Json.obj [])] =
      .error (.keyError "docs") := rfl

/-- C7 (amended): decoding a grouped response with two groups under field
`"brand"` sums the groups' individual `doclist.numFound` values into the
*envelope's* overall found-count (`num_found = m + n`), while the field's
aggregate match count (`matches`) is taken verbatim from the response's
`matches` entry, not from the sum. -/
theorem C7_grouped_numfound_sum (m n mv : Int) :
    build_search_response
      [("grouped", .obj [("brand", .obj
        [("matches", .i mv),
         ("groups", .arr
           [.obj [("groupValue", .s "a"),
                  ("doclist", .obj [("numFound", .i m), ("docs", .arr [])])],
            .obj [("groupValue", .s "b"),
                  ("doclist", .obj [("numFound", .i n), ("docs", .arr [])])]])])])] =
    .ok { status := 0, query_time := 0, num_found := m + n, start := 0,
          docs := [],
          grouping := some
            { grouped := [("brand",
                { matches_ := mv,
                  groups := some
                    [{ group_value := .s "a",
                       doclist := [("numFound", .i m), ("docs", .arr [])] },
                     { group_value := .s "b",
                       doclist := [("numFound", .i n), ("docs", .arr [])] }] })] } } := by
  have h : build_search_response
      [("grouped", .obj [("brand", .obj
        [("matches", .i mv),
         ("groups", .arr
           [.obj [("groupValue", .s "a"),
                  ("doclist", .obj [("numFound", .i m), ("docs", .arr [])])],
            .obj [("groupValue", .s "b"),
                  ("doclist", .obj [("numFound", .i n), ("docs", .arr [])])]])])])] =
    .ok { status := 0, query_time := 0, num_found := m + (n + 0) + 0, start := 0,
          docs := [],
          grouping := some
            { grouped := [("brand",
                { matches_ := mv,
                  groups := some
                    [{ group_value := .s "a",
                       doclist := [("numFound", .i m), ("docs", .arr [])] },
                     { group_value := .s "b",
                       doclist := [("numFound", .i n), ("docs", .arr [])] }] })] } } := rfl
  rw [h]
  simp [add_zero]

/-- C7 (counterexample to the claim as stated): with `matches = 100` and two
groups of `numFound` 2 and 3, the decoded field's aggregate match count is
100 (taken from the response), not the sum 5 — the sum lands in the
envelope's `num_found` instead. -/
theorem C7_grouped_numfound_sum_counterexample :
    build_search_response
      [("grouped", .obj [("brand", .obj
        [("matches", .i 100),
         ("groups", .arr
           [.obj [("groupValue", .s "a"),
                  ("doclist", .obj [("numFound", .i 2), ("docs", .arr [])])],
            .obj [("groupValue", .s "b"),
                  ("doclist", .obj [("numFound", .i 3), ("docs", .arr [])])]])])])] =
    .ok { status := 0, query_time := 0, num_found := 5, start := 0,
          docs := [],
          grouping := some
            { grouped := [("brand",
                { matches_ := 100,
                  groups := some
                    [{ group_value := .s "a",
                       doclist := [("numFound", .i 2), ("docs", .arr [])] },
                     { group_value := .s "b",
                       doclist := [("numFound", .i 3), ("docs", .arr [])] }] })] } } ∧
    (100 : Int) ≠ 2 + 3 :=
  ⟨rfl, by decide⟩

/-- The flat `[value, count, value, count, …]` rendering of a value→count
pair list. -/
def pairArray : List (String × Int) → List Json
  | [] => []
  | p :: rest => .s p.1 :: .i p.2 :: pairArray rest

theorem parsePairs_pairArray (ps : List (String × Int)) :
    parsePairs (pairArray ps) =
      ps.map (fun p => ⟨.s p.1, p.2, []⟩) := by
  induction ps with
  | nil => rfl
  | cons p t ih => simp [pairArray, parsePairs, ih, coerceInt]

theorem parse_arr_pairArray (ps : List (String × Int)) :
    parse_field_facet (.arr (pairArray ps)) =
      { buckets := parsePairs (pairArray ps) } := by
  cases ps with
  | nil => rfl
  | cons p t => rfl

theorem parseMapAux_int (ps : List (String × Int))
    (acc : List SolrFacetFieldValue) (m nb : Option Int)
    (h : ∀ p ∈ ps, p.1 ≠ "missing" ∧ p.1 ≠ "numBuckets") :
    parseMapAux (ps.map (fun p => (p.1, Json.i p.2))) acc m nb =
      (acc ++ ps.map (fun p => ⟨.s p.1, p.2, []⟩), m, nb) := by
  induction ps generalizing acc with
  | nil => simp [parseMapAux]
  | cons p t ih =>
    have hp := h p (List.mem_cons_self p t)
    simp only [List.map_cons, parseMapAux, if_neg hp.1, if_neg hp.2]
    rw [ih _ (fun q hq => h q (List.mem_cons_of_mem p hq))]
    simp [coerceInt]

/-- C6: for a legacy field facet, the `{value: count, …}` map form and the
flat `[value, count, value, count, …]` pair-array form decode to the same
bucket list — explicitly, both yield one bucket `{value, count}` per pair,
in order. -/
theorem C6_facet_form_equivalence (ps : List (String × Int))
    (h : ∀ p ∈ ps, p.1 ≠ "missing" ∧ p.1 ≠ "numBuckets") :
    parse_field_facet (.obj (ps.map (fun p => (p.1, Json.i p.2)))) =
      parse_field_facet (.arr (pairArray ps)) ∧
    (parse_field_facet (.obj (ps.map (fun p => (p.1, Json.i p.2))))).buckets =
      ps.map (fun p => ⟨.s p.1, p.2, []⟩) := by
  have hm : parse_field_facet (.obj (ps.map (fun p => (p.1, Json.i p.2)))) =
      { buckets := ps.map (fun p => ⟨.s p.1, p.2, []⟩) } := by
    have ha := parseMapAux_int ps [] none none h
    simp [parse_field_facet, ha]
  rw [hm, parse_arr_pairArray, parsePairs_pairArray]
  exact ⟨rfl, rfl⟩

/-- C6 (witness, the claim's concrete instance): `{"a": 3, "b": 1}` and
`["a", 3, "b", 1]` decode to the same bucket list
`[{value:"a",count:3},{value:"b",count:1}]`. -/
theorem C6_facet_form_equivalence_witness :
    (∀ p ∈ [("a", (3 : Int)), ("b", 1)], p.1 ≠ "missing" ∧ p.1 ≠ "numBuckets") ∧
    parse_field_facet (.obj [("a", .i 3), ("b", .i 1)]) =
      parse_field_facet (.arr [.s "a", .i 3, .s "b", .i 1]) ∧
    (parse_field_facet (.obj [("a", .i 3), ("b", .i 1)])).buckets =
      [⟨.s "a", 3, []⟩, ⟨.s "b", 1, []⟩] := by
  have h := C6_facet_form_equivalence [("a", 3), ("b", 1)] (by decide)
  exact ⟨by decide, h.1, h.2⟩

/-- The single bucket produced by the map-form loop for one non-special
key/value pair: a dict value contributes its `count` entry as the bucket
count and its remaining entries as extras; any other value is coerced. -/
def bucketOf (p : String × Json) : SolrFacetFieldValue :=
  match p.2 with
  | .obj sub =>
    ⟨.s p.1, coerceInt ((Json.lookup sub "count").getD .null),
     sub.filter (fun q => q.1 ≠ "count")⟩
  | v => ⟨.s p.1, coerceInt v, []⟩

/-- The left-to-right last-occurrence coercion done by the map-form loop for
the `missing` / `numBuckets` side keys. -/
def lastKeyCoerce (key : String) : List (String × Json) → Option Int → Option Int
  | [], m => m
  | (k, v) :: rest, m =>
    lastKeyCoerce key rest (if k = key then some (coerceInt v) else m)

theorem parseMapAux_eq (l : List (String × Json))
    (acc : List SolrFacetFieldValue) (m nb : Option Int) :
    parseMapAux l acc m nb =
      (acc ++ (l.filter
        (fun p => ¬(p.1 = "missing" ∨ p.1 = "numBuckets"))).map bucketOf,
       lastKeyCoerce "missing" l m, lastKeyCoerce "numBuckets" l nb) := by
  induction l generalizing acc m nb with
  | nil => simp [parseMapAux, lastKeyCoerce]
  | cons p t ih =>
    obtain ⟨k, v⟩ := p
    by_cases hk1 : k = "missing"
    · subst hk1
      simp only [parseMapAux, if_pos rfl, lastKeyCoerce]
      rw [ih]
      simp
    · by_cases hk2 : k = "numBuckets"
      · subst hk2
        simp only [parseMapAux, if_neg hk1, if_pos rfl, lastKeyCoerce,
          if_neg (by decide : ¬("numBuckets" : String) = "missing")]
        rw [ih]
        simp [hk1]
      · cases v with
        | obj sub =>
          simp only [parseMapAux, if_neg hk1, if_neg hk2, lastKeyCoerce,
            if_neg hk1, if_neg hk2]
          rw [ih]
          simp [hk1, hk2, bucketOf]
        | null =>
          simp only [parseMapAux, if_neg hk1, if_neg hk2, lastKeyCoerce]
          rw [ih]
          simp [hk1, hk2, bucketOf]
        | b w =>
          simp only [parseMapAux, if_neg hk1, if_neg hk2, lastKeyCoerce]
          rw [ih]
          simp [hk1, hk2, bucketOf]
        | i w =>
          simp only [parseMapAux, if_neg hk1, if_neg hk2, lastKeyCoerce]
          rw [ih]
          simp [hk1, hk2, bucketOf]
        | s w =>
          simp only [parseMapAux, if_neg hk1, if_neg hk2, lastKeyCoerce]
          rw [ih]
          simp [hk1, hk2, bucketOf]
        | arr xs =>
          simp only [parseMapAux, if_neg hk1, if_neg hk2, lastKeyCoerce]
          rw [ih]
          simp [hk1, hk2, bucketOf]

theorem lastKeyCoerce_not_mem (key : String) (l : List (String × Json))
    (m : Option Int) (h : ∀ p ∈ l, p.1 ≠ key) :
    lastKeyCoerce key l m = m := by
  induction l with
  | nil => rfl
  | cons p t ih =>
    obtain ⟨k, v⟩ := p
    have hk := h (k, v) (List.mem_cons_self _ t)
    simp only [lastKeyCoerce, if_neg hk]
    exact ih (fun q hq => h q (List.mem_cons_of_mem _ hq))

theorem lastKeyCoerce_lookup (key : String) (l : List (String × Json))
    (h : (l.map Prod.fst).Nodup) :
    lastKeyCoerce key l none = (Json.lookup l key).map coerceInt := by
  induction l with
  | nil => rfl
  | cons p t ih =>
    simp only [List.map_cons, List.nodup_cons] at h
    obtain ⟨k, v⟩ := p
    by_cases hk : k = key
    · simp only [lastKeyCoerce, if_pos hk]
      have hnm : ∀ q ∈ t, q.1 ≠ key := by
        intro q hq he
        apply h.1
        rw [hk]
        exact List.mem_map.mpr ⟨q, hq, he⟩
      rw [lastKeyCoerce_not_mem _ _ _ hnm]
      unfold Json.lookup
      rw [List.find?_cons_of_pos _ (by simpa using hk)]
      simp
    · simp only [lastKeyCoerce, if_neg hk]
      rw [ih h.2]
      unfold Json.lookup
      rw [List.find?_cons_of_neg _ (by simpa using hk)]

theorem bucketOf_value (p : String × Json) : (bucketOf p).value = .s p.1 := by
  obtain ⟨k, v⟩ := p
  cases v <;> rfl

/-- C10: in the map form of a legacy field facet, the `missing` and
`numBuckets` keys never become buckets — their values are coerced to ints
and stored as the result's `missing` count and `numBuckets` field — while
every other key/value pair becomes exactly one bucket, a dict value
contributing its `count` entry as the bucket count and its remaining entries
as extra attributes. -/
theorem C10_missing_and_numbuckets (kvs : List (String × Json))
    (h : (kvs.map Prod.fst).Nodup) :
    (parse_field_facet (.obj kvs)).missing =
      (Json.lookup kvs "missing").map coerceInt ∧
    (parse_field_facet (.obj kvs)).num_buckets =
      (Json.lookup kvs "numBuckets").map coerceInt ∧
    (parse_field_facet (.obj kvs)).buckets =
      (kvs.filter
        (fun p => ¬(p.1 = "missing" ∨ p.1 = "numBuckets"))).map bucketOf ∧
    (∀ b ∈ (parse_field_facet (.obj kvs)).buckets,
      b.value ≠ .s "missing" ∧ b.value ≠ .s "numBuckets") := by
  have hp : parse_field_facet (.obj kvs) =
      { buckets := (kvs.filter
          (fun p => ¬(p.1 = "missing" ∨ p.1 = "numBuckets"))).map bucketOf,
        missing := lastKeyCoerce "missing" kvs none,
        num_buckets := lastKeyCoerce "numBuckets" kvs none } := by
    simp [parse_field_facet, parseMapAux_eq]
  rw [hp]
  refine ⟨lastKeyCoerce_lookup "missing" kvs h,
      lastKeyCoerce_lookup "numBuckets" kvs h, rfl, ?_⟩
  intro b hb
  obtain ⟨p, hpmem, hpb⟩ := List.mem_map.mp hb
  have hpf : ¬(p.1 = "missing" ∨ p.1 = "numBuckets") := by
    have := (List.mem_filter.mp hpmem).2
    simpa using this
  subst hpb
  rw [bucketOf_value]
  exact ⟨fun he => hpf (Or.inl (Json.s.inj he)),
         fun he => hpf (Or.inr (Json.s.inj he))⟩

/-- C10 (witness): a map-form facet with `missing`, `numBuckets`, a scalar
pair and a nested-dict pair decodes as characterized. -/
theorem C10_missing_and_numbuckets_witness :
    (([("missing", Json.i 7), ("numBuckets", Json.i 4), ("x", Json.i 2),
       ("y", Json.obj [("count", Json.i 3), ("extra", Json.b true)])].map
        Prod.fst).Nodup) ∧
    (parse_field_facet (.obj [("missing", Json.i 7), ("numBuckets", Json.i 4),
        ("x", Json.i 2),
        ("y", Json.obj [("count", Json.i 3), ("extra", Json.b true)])])).missing =
      some 7 ∧
    (parse_field_facet (.obj [("missing", Json.i 7), ("numBuckets", Json.i 4),
        ("x", Json.i 2),
        ("y", Json.obj [("count", Json.i 3), ("extra", Json.b true)])])).num_buckets =
      some 4 ∧
    (parse_field_facet (.obj [("missing", Json.i 7), ("numBuckets", Json.i 4),
        ("x", Json.i 2),
        ("y", Json.obj [("count", Json.i 3), ("extra", Json.b true)])])).buckets =
      [⟨.s "x", 2, []⟩, ⟨.s "y", 3, [("extra", Json.b true)]⟩] := by
  have h := C10_missing_and_numbuckets
    [("missing", Json.i 7), ("numBuckets", Json.i 4), ("x", Json.i 2),
     ("y", Json.obj [("count", Json.i 3), ("extra", Json.b true)])] (by decide)
  refine ⟨by decide, ?_, ?_, ?_⟩
  · rw [h.1]
    rfl
  · rw [h.2.1]
    rfl
  · rw [h.2.2.1]
    rfl

end Taiyo
